import Mathlib

/-!
Verification development for the dlabel repository (src/dlabel).

The development shallowly embeds the Python sources:
  * `src/dlabel/traefik_conf.py` — the pydantic config model (`Model.setbyaddr`,
    `Model.merge`, the typed schema, key lowercasing, the literal conversions);
  * `src/dlabel/traefik.py` — label/args/envs extraction (`traefik_label_config`,
    `traefik_container_config`, `traefik_dump`), backend computation
    (`get_backend`), rule parsing (`rule2locationkey`) and the two proxy
    emitters (`traefik2nginx`, `traefik2apache`);
  * `src/dlabel/compose.py` — `portmap2compose` and the per-container compose
    reconstruction;
  * `src/dlabel/util.py` — `special_modes`, `is_already`, `is_match`,
    `do_kind0/1/2` and `get_diff`.

Python values flowing through dicts are embedded as `JValue`; Python
exceptions are embedded as `Except PyErr`.  Machine-level concerns (tar
streaming, YAML parsing, the docker transport) are inputs of the embedding:
a container snapshot carries its already-parsed provider files.
-/

set_option maxRecDepth 4096
set_option maxHeartbeats 1000000

/-- A Python value as it appears in dicts handled by the sources (JSON-like).
Dicts are association lists in insertion order, as Python dicts preserve
insertion order. -/
inductive JValue where
  | null : JValue
  | str (s : String) : JValue
  | int (n : Int) : JValue
  | bool (b : Bool) : JValue
  | obj (kvs : List (String × JValue)) : JValue
  | arr (xs : List JValue) : JValue
  deriving Repr

mutual

/-- Python equality on embedded values (structural; keys and order both
matter, as the sources only compare scalars). -/
def jeq : JValue → JValue → Bool
  | .null, .null => true
  | .str a, .str b => a == b
  | .int a, .int b => a == b
  | .bool a, .bool b => a == b
  | .obj a, .obj b => jeqKvs a b
  | .arr a, .arr b => jeqArr a b
  | _, _ => false

/-- equality of dict entry lists. -/
def jeqKvs : List (String × JValue) → List (String × JValue) → Bool
  | [], [] => true
  | (k1, v1) :: r1, (k2, v2) :: r2 => k1 == k2 && jeq v1 v2 && jeqKvs r1 r2
  | _, _ => false

/-- equality of value lists. -/
def jeqArr : List JValue → List JValue → Bool
  | [], [] => true
  | x :: xs, y :: ys => jeq x y && jeqArr xs ys
  | _, _ => false

end

instance : BEq JValue := ⟨jeq⟩

/-- Python exceptions raised by the embedded code. -/
inductive PyErr where
  | attributeError : PyErr
  | indexError : PyErr
  | keyError : PyErr
  | typeError : PyErr
  | valueError : PyErr
  | validationError : PyErr
  | exception : PyErr
  deriving Repr, BEq, DecidableEq

namespace JValue

/-- Python dict lookup `d.get(k)`: first (and only, keys are unique) match. -/
def lookup (kvs : List (String × JValue)) (k : String) : Option JValue :=
  match kvs with
  | [] => none
  | (k0, v0) :: rest => if k0 = k then some v0 else lookup rest k

/-- Python dict assignment `d[k] = v`: overwrite in place, append if new. -/
def setKey (kvs : List (String × JValue)) (k : String) (v : JValue) :
    List (String × JValue) :=
  match kvs with
  | [] => [(k, v)]
  | (k0, v0) :: rest =>
    if k0 = k then (k0, v) :: rest else (k0, v0) :: setKey rest k v

/-- Python truthiness of an embedded value. -/
def truthy : JValue → Bool
  | .null => false
  | .str s => s ≠ ""
  | .int n => n ≠ 0
  | .bool b => b
  | .obj kvs => !kvs.isEmpty
  | .arr xs => !xs.isEmpty

end JValue

/-! ## Kernel-evaluable string primitives

The Lean string library implements several operations by well-founded
recursion, which blocks definitional evaluation; the embeddings therefore
use the following character-list based equivalents of the Python string
operations. -/

/-- Python `s.lower()` (ASCII, as all keys here are ASCII). -/
def pyLower (s : String) : String :=
  ⟨s.data.map Char.toLower⟩

/-- Python `s.startswith(pre)`. -/
def pyStartsWith (s pre : String) : Bool :=
  pre.data.isPrefixOf s.data

/-- Python `s.endswith(suf)`. -/
def pyEndsWith (s suf : String) : Bool :=
  suf.data.isSuffixOf s.data

/-- Python `c in s` for a single character. -/
def pyContainsChar (s : String) (c : Char) : Bool :=
  s.data.contains c

/-- Python `s.split(sep)` for a one-character separator (keeps empty
fields). -/
def splitCharAux (c : Char) : List Char → List Char → List String
  | [], acc => [⟨acc.reverse⟩]
  | x :: rest, acc =>
    if x = c then ⟨acc.reverse⟩ :: splitCharAux c rest []
    else splitCharAux c rest (x :: acc)

/-- Python `s.split(sep)` for a one-character separator. -/
def pySplitChar (s : String) (c : Char) : List String :=
  splitCharAux c s.data []

/-- Python `s.split(sep)` for a multi-character separator, fuel-driven (the
fuel, one unit per input character, always suffices). -/
def splitSeqAux (sep : List Char) : Nat → List Char → List Char → List String
  | 0, l, acc => [⟨(acc.reverse ++ l)⟩]
  | _ + 1, [], acc => [⟨acc.reverse⟩]
  | fuel + 1, x :: rest, acc =>
    if sep.isPrefixOf (x :: rest) then
      ⟨acc.reverse⟩ :: splitSeqAux sep fuel ((x :: rest).drop sep.length) []
    else
      splitSeqAux sep fuel rest (x :: acc)

/-- Python `s.split(sep)` for a non-empty multi-character separator. -/
def pySplitSeq (s sep : String) : List String :=
  splitSeqAux sep.data (s.data.length + 1) s.data []

/-- digit accumulation for `int()`. -/
def digitsToNat : List Char → Nat → Option Nat
  | [], acc => some acc
  | c :: rest, acc =>
    if c.isDigit then digitsToNat rest (acc * 10 + (c.toNat - '0'.toNat))
    else none

/-- Python `int(s)` as a partial function: optional sign followed by at
least one decimal digit (whitespace trimming and underscore grouping are
not modelled; no input here carries them). -/
def pyToInt (s : String) : Option Int :=
  let (neg, ds) := match s.data with
    | '-' :: rest => (true, rest)
    | '+' :: rest => (false, rest)
    | l => (false, l)
  if ds.isEmpty then none
  else match digitsToNat ds 0 with
    | some n => some (if neg then -(n : Int) else (n : Int))
    | none => none

/-- Key lowercasing of `Model.__lowercase_property_keys__`
(src/dlabel/traefik_conf.py lines 14-21): recurses through dicts only. -/
def lowerKeys : JValue → JValue
  | .obj kvs => .obj (lowerMap kvs)
  | v => v
where
  /-- lowercase each key and recurse into the value. -/
  lowerMap : List (String × JValue) → List (String × JValue)
  | [] => []
  | (k, v) :: rest => (pyLower k, lowerKeys v) :: lowerMap rest

/-- `dictknife.deepmerge` as the sources use it (external library; modelled
from the spec, section 4.B: for two mappings union the keys and recurse on
overlap, for two lists concatenate, otherwise the right side wins). -/
def deepmerge : JValue → JValue → JValue
  | .obj a, .obj b => .obj (mergeMap a b)
  | .arr a, .arr b => .arr (a ++ b)
  | _, b => b
where
  /-- merge the right-hand dict into the left-hand dict, key by key. -/
  mergeMap : List (String × JValue) → List (String × JValue) →
      List (String × JValue)
  | a, [] => a
  | a, (k, v) :: rest =>
    match JValue.lookup a k with
    | some v0 => mergeMap (JValue.setKey a k (deepmerge v0 v)) rest
    | none => mergeMap (a ++ [(k, v)]) rest

/-- Declared field types of the pydantic schema in src/dlabel/traefik_conf.py.
Every declared field there is `T | None`; `objT` models a `Model` subclass
(extra keys allowed), `csvListStrT` models `ListStr`
(`Annotated[list[str], BeforeValidator(csv_list)]`). -/
inductive Ty where
  | anyT : Ty
  | strT : Ty
  | intT : Ty
  | boolT : Ty
  | listT (t : Ty) : Ty
  | csvListStrT : Ty
  | dictT (t : Ty) : Ty
  | objT (fields : List (String × Ty)) : Ty
  | unionT (ts : List Ty) : Ty
  deriving Repr, BEq

/-- pydantic lax coercion of a string to bool (the set pydantic v2 accepts). -/
def pyBoolOfString (s : String) : Option Bool :=
  let l := pyLower s
  if l = "true" ∨ l = "1" ∨ l = "yes" ∨ l = "on" ∨ l = "y" ∨ l = "t" then
    some true
  else if l = "false" ∨ l = "0" ∨ l = "no" ∨ l = "off" ∨ l = "n" ∨ l = "f" then
    some false
  else none

/-- validation of `list[str]` elements (each element must already be a
string; pydantic v2 does not coerce numbers to str). -/
def strListValidate : List JValue → Except PyErr (List JValue)
  | [] => .ok []
  | .str s :: xs => do
    let ys ← strListValidate xs
    .ok (.str s :: ys)
  | _ :: _ => .error .validationError

/-- map a fallible validator over a list (failure aborts). -/
def exceptMapList (f : JValue → Except PyErr JValue) :
    List JValue → Except PyErr (List JValue)
  | [] => .ok []
  | x :: xs => do
    let y ← f x
    let ys ← exceptMapList f xs
    .ok (y :: ys)

/-- map a fallible validator over the values of a dict (failure aborts). -/
def exceptMapDict (f : JValue → Except PyErr JValue) :
    List (String × JValue) → Except PyErr (List (String × JValue))
  | [] => .ok []
  | (k, x) :: rest => do
    let y ← f x
    let ys ← exceptMapDict f rest
    .ok ((k, y) :: ys)

/-- process declared model fields in declaration order with the given
validator: an absent or None input is unset and omitted, a present input is
coerced to the field type. -/
def fieldsValidate (f : Ty → JValue → Except PyErr JValue) :
    List (String × Ty) → List (String × JValue) →
    Except PyErr (List (String × JValue))
  | [], _ => .ok []
  | (name, t) :: fs, kvs =>
    match JValue.lookup kvs name with
    | none => fieldsValidate f fs kvs
    | some .null => fieldsValidate f fs kvs
    | some v => do
      let v' ← f t v
      let rest ← fieldsValidate f fs kvs
      .ok ((name, v') :: rest)

/-- try union members left to right in lax mode; the first success wins. -/
def unionValidate (f : Ty → JValue → Except PyErr JValue) :
    List Ty → JValue → Except PyErr JValue
  | [], _ => .error .validationError
  | t :: ts, v =>
    match f t v with
    | .ok v' => .ok v'
    | .error _ => unionValidate f ts v

mutual

/-- the nesting depth of a schema type (the recursion depth bound of the
validator). -/
def tyDepth : Ty → Nat
  | .anyT | .strT | .intT | .boolT | .csvListStrT => 1
  | .listT t => tyDepth t + 1
  | .dictT t => tyDepth t + 1
  | .objT fields => tyFieldsDepth fields + 1
  | .unionT ts => tyListDepth ts + 1

/-- depth over a field list. -/
def tyFieldsDepth : List (String × Ty) → Nat
  | [] => 0
  | (_, t) :: fs => max (tyDepth t) (tyFieldsDepth fs)

/-- depth over a member list. -/
def tyListDepth : List Ty → Nat
  | [] => 0
  | t :: ts => max (tyDepth t) (tyListDepth ts)

end

/-- pydantic validation followed by
`model_dump(exclude_none=True, exclude_defaults=True, exclude_unset=True)`
(src/dlabel/traefik_conf.py: `Model`, `excludes`), fuel-indexed so that it
evaluates definitionally.  Every recursive call descends into a strict
subterm of the schema type, so a fuel of `tyDepth ty + 1` always suffices
and the out-of-fuel branch is unreachable.  The external pydantic behaviour
is modelled from the spec (sections 3, 4.B, 4.C): lax coercions ("false" to
bool at bool fields, digit strings to int at int fields, CSV strings to
lists at `ListStr` fields), recursive key lowercasing at each model,
unknown keys preserved, unset/None fields omitted from the dump. -/
def pvalidateF : Nat → Ty → JValue → Except PyErr JValue
  | 0, _, _ => .error .exception
  | fuel + 1, ty, v =>
    match ty with
    | .anyT => .ok v
    | .strT =>
      match v with
      | .str s => .ok (.str s)
      | _ => .error .validationError
    | .intT =>
      match v with
      | .int n => .ok (.int n)
      | .str s =>
        match pyToInt s with
        | some n => .ok (.int n)
        | none => .error .validationError
      | _ => .error .validationError
    | .boolT =>
      match v with
      | .bool b => .ok (.bool b)
      | .str s =>
        match pyBoolOfString s with
        | some b => .ok (.bool b)
        | none => .error .validationError
      | .int 0 => .ok (.bool false)
      | .int 1 => .ok (.bool true)
      | _ => .error .validationError
    | .listT t =>
      match v with
      | .arr xs => do
        let ys ← exceptMapList (pvalidateF fuel t) xs
        .ok (.arr ys)
      | _ => .error .validationError
    | .csvListStrT =>
      match v with
      | .str s => .ok (.arr ((pySplitChar s ',').map JValue.str))
      | .arr xs => do
        let ys ← strListValidate xs
        .ok (.arr ys)
      | _ => .error .validationError
    | .dictT t =>
      match v with
      | .obj kvs => do
        let out ← exceptMapDict (pvalidateF fuel t) kvs
        .ok (.obj out)
      | _ => .error .validationError
    | .objT fields =>
      match lowerKeys v with
      | .obj kvs => do
        let declared ← fieldsValidate (pvalidateF fuel) fields kvs
        let extras := kvs.filter fun kv =>
          !(fields.any fun f => f.1 == kv.1) && !(jeq kv.2 JValue.null)
        .ok (.obj (declared ++ extras))
      | _ => .error .validationError
    | .unionT ts => unionValidate (pvalidateF fuel) ts v

/-- validation at the always-sufficient fuel. -/
def pvalidate (ty : Ty) (v : JValue) : Except PyErr JValue :=
  pvalidateF (tyDepth ty + 1) ty v

/-! ## The declared schema (src/dlabel/traefik_conf.py, classes bottom-up) -/

/-- `dict[str, Any]`. -/
def dictAnyT : Ty := .dictT .anyT

/-- class CertFile. -/
def certFileTy : Ty := .objT [("certfile", .strT), ("keyfile", .strT)]

/-- class StoreCert. -/
def storeCertTy : Ty :=
  .objT [("defaultcertificate", certFileTy), ("defaultgeneratedcert", dictAnyT)]

/-- class TlsCert (extends CertFile). -/
def tlsCertTy : Ty :=
  .objT [("certfile", .strT), ("keyfile", .strT), ("stores", .listT .strT)]

/-- class TlsConfig. -/
def tlsConfigTy : Ty :=
  .objT [("certificates", .listT tlsCertTy), ("stores", .dictT storeCertTy),
         ("options", dictAnyT)]

/-- class HttpRouter. -/
def httpRouterTy : Ty :=
  .objT [("entrypoints", .csvListStrT), ("rule", .strT), ("rulesyntax", .strT),
         ("middlewares", .csvListStrT), ("service", .strT), ("priority", .intT),
         ("tls", .unionT [dictAnyT, .boolT])]

/-- class HttpLoadBalancerServer. -/
def httpLoadBalancerServerTy : Ty :=
  .objT [("host", .strT), ("ipaddress", .strT), ("port", .intT)]

/-- class HttpLoadBalancer. -/
def httpLoadBalancerTy : Ty :=
  .objT [("servers", .listT dictAnyT), ("server", httpLoadBalancerServerTy),
         ("sticky", dictAnyT), ("healthcheck", .dictT .strT),
         ("passhostheader", .boolT), ("serverstransport", .strT),
         ("responseforwarding", dictAnyT)]

/-- class HttpService. -/
def httpServiceTy : Ty :=
  .objT [("loadbalancer", httpLoadBalancerTy), ("weighted", dictAnyT),
         ("mirroring", dictAnyT), ("failover", dictAnyT)]

/-- class CompressMiddleware. -/
def compressMiddlewareTy : Ty :=
  .objT [("excludedcontenttypes", .listT .strT),
         ("includedcontenttypes", .listT .strT),
         ("minresponsebodybytes", .intT), ("defaultencoding", .strT),
         ("encodings", .csvListStrT)]

/-- class HeadersMiddleware. -/
def headersMiddlewareTy : Ty :=
  .objT [("customrequestheaders", .dictT .strT),
         ("customresponseheaders", .dictT .strT)]

/-- class StripprefixMiddleware. -/
def stripprefixMiddlewareTy : Ty :=
  .objT [("prefixes", .csvListStrT), ("forceslash", .boolT)]

/-- class StripprefixregexMiddleware. -/
def stripprefixregexMiddlewareTy : Ty := .objT [("regex", .csvListStrT)]

/-- class AddprefixMiddleware. -/
def addprefixMiddlewareTy : Ty := .objT [("prefix", .strT)]

/-- class HttpMiddleware (fields in declaration order). -/
def httpMiddlewareTy : Ty :=
  .objT [("addprefix", addprefixMiddlewareTy), ("basicauth", dictAnyT),
         ("buffering", dictAnyT), ("chain", dictAnyT),
         ("circuitbreaker", dictAnyT),
         ("compress", .unionT [compressMiddlewareTy, .boolT]),
         ("contenttype", .unionT [dictAnyT, .boolT]),
         ("digestauth", dictAnyT), ("errors", dictAnyT),
         ("forwardauth", dictAnyT), ("grpcweb", dictAnyT),
         ("headers", headersMiddlewareTy), ("ipwhitelist", dictAnyT),
         ("ipallowlist", dictAnyT), ("inflightreq", dictAnyT),
         ("passtlsclientcert", dictAnyT), ("ratelimit", dictAnyT),
         ("redirectregex", dictAnyT), ("redirectscheme", dictAnyT),
         ("replacepath", dictAnyT), ("replacepathregex", dictAnyT),
         ("retry", dictAnyT), ("stripprefix", stripprefixMiddlewareTy),
         ("stripprefixregex", stripprefixregexMiddlewareTy)]

/-- class HttpConfig. -/
def httpConfigTy : Ty :=
  .objT [("middlewares", .dictT httpMiddlewareTy),
         ("routers", .dictT httpRouterTy), ("services", .dictT httpServiceTy),
         ("serverstransports", .dictT dictAnyT)]

/-- class EntrypointHttp. -/
def entrypointHttpTy : Ty :=
  .objT [("redirections", dictAnyT), ("encodequerysemicolons", .boolT),
         ("middlewares", .listT .strT), ("tls", dictAnyT)]

/-- class EntrypointHttp2. -/
def entrypointHttp2Ty : Ty := .objT [("maxconcurrentstreams", .intT)]

/-- class EntrypointHttp3. -/
def entrypointHttp3Ty : Ty := .objT [("advertisedport", .intT)]

/-- class EntrypointConfig. -/
def entrypointConfigTy : Ty :=
  .objT [("address", .strT), ("http", entrypointHttpTy),
         ("http2", entrypointHttp2Ty),
         ("http3", .unionT [entrypointHttp3Ty, .boolT]), ("udp", dictAnyT),
         ("allowacmebypass", .boolT), ("reuseport", .boolT),
         ("asdefault", .boolT), ("forwardedheaders", dictAnyT),
         ("transport", dictAnyT), ("proxyprotocol", dictAnyT)]

/-- class FileProvider. -/
def fileProviderTy : Ty :=
  .objT [("filename", .strT), ("directory", .strT), ("watch", .boolT)]

/-- class ProviderConfig. -/
def providerConfigTy : Ty :=
  .objT [("docker", .unionT [dictAnyT, .boolT]), ("file", fileProviderTy),
         ("swarm", dictAnyT), ("kubernetescrd", dictAnyT),
         ("kubernetesingress", .unionT [dictAnyT, .boolT]),
         ("kubernetesgateway", .unionT [dictAnyT, .boolT]),
         ("consulcatalog", .unionT [dictAnyT, .boolT]),
         ("nomad", .unionT [dictAnyT, .boolT]),
         ("ecs", .unionT [dictAnyT, .boolT]), ("consul", dictAnyT),
         ("etcd", dictAnyT), ("zookeeper", dictAnyT), ("redis", dictAnyT),
         ("http", dictAnyT)]

/-- class TraefikConfig. -/
def traefikConfigTy : Ty :=
  .objT [("tls", tlsConfigTy), ("http", httpConfigTy), ("tcp", dictAnyT),
         ("udp", dictAnyT), ("entrypoints", .dictT entrypointConfigTy),
         ("providers", providerConfigTy), ("api", dictAnyT),
         ("accesslog", dictAnyT), ("experimental", dictAnyT),
         ("log", dictAnyT), ("metrics", dictAnyT), ("tracing", dictAnyT),
         ("certificatesresolvers", dictAnyT), ("spiffe", dictAnyT)]

/-! ## Model.merge and Model.setbyaddr (src/dlabel/traefik_conf.py 23-41)

A model instance is carried in its canonical dumped form (a `JValue.obj`
with unset/None fields absent), which is what
`model_dump(exclude_none, exclude_defaults, exclude_unset)` yields, so
`model_dump` is the identity on the representation. -/

/-- A freshly constructed model (`TraefikConfig()` etc.): nothing set. -/
def emptyModel : JValue := .obj []

/-- `Model.merge(self, other)`: deep-merge the two dumps, then re-validate
against the model type (`self.model_validate(obj)`). -/
def modelMerge (ty : Ty) (self other : JValue) : Except PyErr JValue :=
  pvalidate ty (deepmerge self other)

/-- The address argument of `Model.setbyaddr` as the Python callers pass it:
`src/dlabel/traefik_conf.py` declares a dotted string, while every call in
`src/dlabel/traefik.py` passes a list of segments. -/
inductive PyAddr where
  | str (s : String) : PyAddr
  | list (segs : List String) : PyAddr
  deriving Repr, BEq

/-- The auxiliary dict built by `Model.setbyaddr` from the already split
address segments: each leading segment becomes a nested dict, the last
segment holds the (already converted) value.  Python guarantees
`"x".split(".")` is non-empty, so the empty-segments case cannot arise;
it is mapped to the bare value. -/
def setDict : List String → JValue → JValue
  | [], v => v
  | [k], v => .obj [(k, v)]
  | k :: rest, v => .obj [(k, setDict rest v)]

/-- `Model.setbyaddr(self, address, value)` (src/dlabel/traefik_conf.py
30-41).  The address is split on "." — an address that is a list (as every
caller in src/dlabel/traefik.py passes) has no `split` attribute and raises
AttributeError.  The literal conversion `"true"` → `{}` is applied to the
leaf, then the auxiliary tree is validated and merged into the receiver. -/
def setbyaddr (ty : Ty) (self : JValue) (address : PyAddr) (value : JValue) :
    Except PyErr JValue :=
  match address with
  | .list _ => .error .attributeError
  | .str s => do
    let parts := pySplitChar s '.'
    let value := if value == .str "true" then .obj [] else value
    let res := setDict parts value
    let other ← pvalidate ty res
    modelMerge ty self other

/-! ## String helpers shared by the embeddings -/

/-- split a character list at the first occurrence of the separator. -/
def splitOnceAux (c : Char) : List Char → Option (List Char × List Char)
  | [] => none
  | x :: rest =>
    if x = c then some ([], rest)
    else (splitOnceAux c rest).map fun p => (x :: p.1, p.2)

/-- Python `s.split(c, 1)`: the part before the first occurrence, and the
part after it when the separator occurs. -/
def pySplitOnce (s : String) (c : Char) : String × Option String :=
  match splitOnceAux c s.data with
  | none => (s, none)
  | some (a, b) => (⟨a⟩, some ⟨b⟩)

/-- Python `needle in hay` on strings (substring test): the needle is a
prefix of some suffix of the haystack. -/
def infixScan (needle : List Char) : List Char → Bool
  | [] => needle.isEmpty
  | h :: t => needle.isPrefixOf (h :: t) || infixScan needle t

/-- Python `needle in hay` on strings (substring test). -/
def pyInStr (needle hay : String) : Bool :=
  infixScan needle.data hay.data

/-- Python `int(s)` for a string argument: ValueError when unparsable. -/
def pyInt (s : String) : Except PyErr Int :=
  match pyToInt s with
  | some n => .ok n
  | none => .error .valueError

/-- Python attribute access on a model carried in dumped form: a declared
field that is unset dumps as absent and reads back as None. -/
def modelAttr (self : JValue) (name : String) : Option JValue :=
  match self with
  | .obj kvs => JValue.lookup kvs name
  | _ => none

/-- lookup in a str-to-str Python dict (`labels.get(k)`). -/
def lookupStr (kvs : List (String × String)) (k : String) : Option String :=
  match kvs with
  | [] => none
  | (k0, v0) :: rest => if k0 = k then some v0 else lookupStr rest k

/-! ## The container snapshot (spec section 3, interface 6.1) -/

/-- One inventoried container as `traefik_dump` reads it: name, image tags,
labels, `attrs["Args"]`, `attrs["Config"]["Env"]`, network attachments
(name, IPAddress), and, modelled from the spec (section 4.D step 1), the
already-parsed regular files of the archive fetched at a path (tar
download and YAML/TOML parsing are external concerns). -/
structure DContainer where
  name : String
  imageTags : List String
  labels : List (String × String)
  args : List String
  env : List String
  networks : List (String × String)
  files : String → List (String × JValue)

/-! ## traefik_label_config (src/dlabel/traefik.py 130-144) -/

/-- `re.match(r"http\.services\.([^\.]+)\.loadbalancer\.server\.port", k1)`:
an anchored-at-start match returning the service name group. -/
def matchPortKey (k1 : String) : Option String :=
  match pySplitChar k1 '.' with
  | "http" :: "services" :: name :: "loadbalancer" :: "server" :: p :: _ =>
    if name ≠ "" ∧ pyStartsWith p "port" then some name else none
  | _ => none

/-- The body of the label loop for one label `(k, v)`, threading the
accumulated config.  The port-matching branch synthesizes the host and
ipaddress entries and coerces the port to int; every `setbyaddr` call here
passes a list address. -/
def labelStep (host ipaddr : JValue) (res : JValue) (k v : String) :
    Except PyErr JValue := do
  if k = "traefik.enable" then
    .ok res
  else if pyStartsWith k "traefik." then do
    let k1 := (pySplitOnce k '.').2.getD ""
    match matchPortKey k1 with
    | some name => do
      let res ← setbyaddr traefikConfigTy res
        (.list ["http", "services", name, "loadbalancer", "server", "host"])
        host
      let res ← setbyaddr traefikConfigTy res
        (.list ["http", "services", name, "loadbalancer", "server",
                "ipaddress"]) ipaddr
      let n ← pyInt v
      setbyaddr traefikConfigTy res (.list (pySplitChar k1 '.')) (.int n)
    | none =>
      setbyaddr traefikConfigTy res (.list (pySplitChar k1 '.')) (.str v)
  else
    .ok res

/-- `traefik_label_config(labels, host, ipaddr)`: fold `labelStep` over the
labels in insertion order, starting from a fresh `TraefikConfig()`. -/
def traefik_label_config (labels : List (String × String))
    (host ipaddr : JValue) : Except PyErr JValue :=
  go labels emptyModel
where
  /-- the label loop. -/
  go : List (String × String) → JValue → Except PyErr JValue
  | [], res => .ok res
  | (k, v) :: rest, res => do
    let res ← labelStep host ipaddr res k v
    go rest res

/-! ## traefik_container_config (src/dlabel/traefik.py 163-194) -/

/-- The argument loop: each `--key=value` element is split and written with
a list address. -/
def argsFold : List String → JValue → Except PyErr JValue
  | [], acc => .ok acc
  | arg :: rest, acc => do
    let acc ←
      if pyStartsWith arg "--" ∧ pyContainsChar arg '=' then
        let kv := pySplitOnce arg '='
        setbyaddr traefikConfigTy acc
          (.list (pySplitChar ((kv.1).drop 2) '.')) (.str ((kv.2).getD ""))
      else
        .ok acc
    argsFold rest acc

/-- The environment loop: each `TRAEFIK_…=value` entry is split on `_` into
a list address. -/
def envsFold : List String → JValue → Except PyErr JValue
  | [], acc => .ok acc
  | env :: rest, acc => do
    let acc ←
      if pyStartsWith env "TRAEFIK_" ∧ pyContainsChar env '=' then
        let kv := pySplitOnce (env.drop 8) '='
        setbyaddr traefikConfigTy acc
          (.list (pySplitChar (kv.1) '_')) (.str ((kv.2).getD ""))
      else
        .ok acc
    envsFold rest acc

/-- Python `a or b`. -/
def pyOr (a b : JValue) : JValue := if a.truthy then a else b

/-- The provider-file loop: merge each parsed YAML/TOML file into
`from_conf` (parsing is an input of the embedding, see `DContainer.files`). -/
def confFold : List (String × JValue) → JValue → Except PyErr JValue
  | [], acc => .ok acc
  | (fn, parsed) :: rest, acc => do
    let acc ←
      if pyEndsWith fn ".yml" ∨ pyEndsWith fn ".yaml" ∨ pyEndsWith fn ".toml"
          then do
        let v ← pvalidate traefikConfigTy parsed
        modelMerge traefikConfigTy acc v
      else
        .ok acc
    confFold rest acc

/-- `traefik_container_config(ctn)`: extract `from_args`, `from_envs` and
`from_conf` from one traefik-image container.  Note the provider
computation reads `from_args.providers` and `from_envs.providers` and calls
`.model_dump()` on them inside `Model.merge`, which raises AttributeError
when the attribute is None (unset). -/
def traefik_container_config (c : DContainer) :
    Except PyErr (JValue × JValue × JValue) := do
  let from_args ← argsFold c.args emptyModel
  let from_envs ← envsFold c.env emptyModel
  let pa ← match modelAttr from_args "providers" with
    | some p => .ok p
    | none => .error .attributeError
  let provider ← modelMerge providerConfigTy emptyModel pa
  let pe ← match modelAttr from_envs "providers" with
    | some p => .ok p
    | none => .error .attributeError
  let provider ← modelMerge providerConfigTy provider pe
  let from_conf ←
    match modelAttr provider "file" with
    | some f =>
      let to_load := pyOr ((modelAttr f "filename").getD .null)
        ((modelAttr f "directory").getD .null)
      if to_load.truthy then
        match to_load with
        | .str path => confFold (c.files path) emptyModel
        | _ => .ok emptyModel
      else
        .ok emptyModel
    | none => .ok emptyModel
  .ok (from_args, from_envs, from_conf)

/-! ## traefik_dump (src/dlabel/traefik.py 197-224) -/

/-- The accumulation state of `traefik_dump`: `from_conf`, `from_args`,
`from_envs`, `from_label`. -/
structure DumpState where
  conf : JValue
  args : JValue
  envs : JValue
  label : JValue
  deriving Repr, BEq

/-- The fresh state: four empty configs. -/
def DumpState.init : DumpState :=
  ⟨emptyModel, emptyModel, emptyModel, emptyModel⟩

/-- One iteration of the container loop of `traefik_dump`: test the first
image tag (IndexError when the tag list is empty), reload the three
container-config sources when the tag mentions traefik (assignment, not
accumulation), and merge the label extraction of a `traefik.enable=true`
container into `from_label`. -/
def dumpStep (st : DumpState) (c : DContainer) : Except PyErr DumpState := do
  let t0 ← match c.imageTags.get? 0 with
    | some t => .ok t
    | none => .error .indexError
  let st ←
    if pyInStr "traefik" t0 then do
      let (a, e, cf) ← traefik_container_config c
      .ok { st with conf := cf, args := a, envs := e }
    else
      .ok st
  if lookupStr c.labels "traefik.enable" = some "true" then do
    let host := c.name
    let addrs := c.networks.map (·.2)
    let addr := match addrs with
      | a :: _ => a
      | [] => ""
    let lbl ← traefik_label_config c.labels (.str host) (.str addr)
    let label' ← modelMerge traefikConfigTy st.label lbl
    .ok { st with label := label' }
  else
    .ok st

/-- The container loop of `traefik_dump`. -/
def dumpFold : List DContainer → DumpState → Except PyErr DumpState
  | [], st => .ok st
  | c :: cs, st => do
    let st ← dumpStep st c
    dumpFold cs st

/-- `traefik_dump(client)`: fold over the inventory, then merge in the order
`from_conf`, `from_envs`, `from_args`, `from_label` and dump (the dump is
the identity on the canonical representation). -/
def traefik_dump (client : List DContainer) : Except PyErr JValue := do
  let st ← dumpFold client DumpState.init
  let res ← modelMerge traefikConfigTy st.conf st.envs
  let res ← modelMerge traefikConfigTy res st.args
  modelMerge traefikConfigTy res st.label

/-! ## The validated config as the emitters read it
(typed view of src/dlabel/traefik_conf.py used by src/dlabel/traefik.py)

`traefik2nginx` / `traefik2apache` first run `TraefikConfig.model_validate`
on their input and then work with typed attributes; the emitter embeddings
therefore quantify over the typed (already validated) view.  A pydantic
model field that was never set reads as None (`Option.none`). -/

/-- A raw Python dict (the elements of `HttpLoadBalancer.servers`, which is
declared `list[dict]`). -/
def PyDict : Type := List (String × JValue)

/-- class HttpLoadBalancerServer, typed view. -/
structure HttpLoadBalancerServerS where
  host : Option String := none
  ipaddress : Option String := none
  port : Option Int := none

/-- class HttpLoadBalancer, typed view. -/
structure HttpLoadBalancerS where
  servers : Option (List PyDict) := none
  server : Option HttpLoadBalancerServerS := none
  sticky : Option JValue := none
  healthcheck : Option (List (String × String)) := none
  passhostheader : Option Bool := none
  serverstransport : Option String := none
  responseforwarding : Option JValue := none

/-- class HttpService, typed view. -/
structure HttpServiceS where
  loadbalancer : Option HttpLoadBalancerS := none
  weighted : Option JValue := none
  mirroring : Option JValue := none
  failover : Option JValue := none

/-- class HttpRouter, typed view (`ListStr` fields already normalized to
lists by validation). -/
structure HttpRouterS where
  entrypoints : Option (List String) := none
  rule : Option String := none
  rulesyntax : Option String := none
  middlewares : Option (List String) := none
  service : Option String := none
  priority : Option Int := none
  tls : Option JValue := none

/-- class CompressMiddleware, typed view. -/
structure CompressMiddlewareS where
  excludedcontenttypes : Option (List String) := none
  includedcontenttypes : Option (List String) := none
  minresponsebodybytes : Option Int := none
  defaultencoding : Option String := none
  encodings : Option (List String) := none

/-- The `CompressMiddleware | bool` union of the `compress` field. -/
inductive CompressVal where
  | flag (b : Bool) : CompressVal
  | conf (c : CompressMiddlewareS) : CompressVal

/-- class HeadersMiddleware, typed view. -/
structure HeadersMiddlewareS where
  customrequestheaders : Option (List (String × String)) := none
  customresponseheaders : Option (List (String × String)) := none

/-- class StripprefixMiddleware, typed view. -/
structure StripprefixMiddlewareS where
  prefixes : Option (List String) := none
  forceslash : Option Bool := none

/-- class StripprefixregexMiddleware, typed view. -/
structure StripprefixregexMiddlewareS where
  regex : Option (List String) := none

/-- class AddprefixMiddleware, typed view (`prefix` is a Lean keyword, hence
the trailing underscore). -/
structure AddprefixMiddlewareS where
  prefix_ : Option String := none

/-- class HttpMiddleware, typed view: the kinds the emitters interpret are
typed, the passthrough kinds are carried verbatim. -/
structure HttpMiddlewareS where
  addprefix : Option AddprefixMiddlewareS := none
  basicauth : Option JValue := none
  buffering : Option JValue := none
  chain : Option JValue := none
  circuitbreaker : Option JValue := none
  compress : Option CompressVal := none
  contenttype : Option JValue := none
  digestauth : Option JValue := none
  errors : Option JValue := none
  forwardauth : Option JValue := none
  grpcweb : Option JValue := none
  headers : Option HeadersMiddlewareS := none
  ipwhitelist : Option JValue := none
  ipallowlist : Option JValue := none
  inflightreq : Option JValue := none
  passtlsclientcert : Option JValue := none
  ratelimit : Option JValue := none
  redirectregex : Option JValue := none
  redirectscheme : Option JValue := none
  replacepath : Option JValue := none
  replacepathregex : Option JValue := none
  retry : Option JValue := none
  stripprefix : Option StripprefixMiddlewareS := none
  stripprefixregex : Option StripprefixregexMiddlewareS := none

/-- class HttpConfig, typed view. -/
structure HttpConfigS where
  middlewares : Option (List (String × HttpMiddlewareS)) := none
  routers : Option (List (String × HttpRouterS)) := none
  services : Option (List (String × HttpServiceS)) := none
  serverstransports : Option JValue := none

/-- class TraefikConfig, typed view (the emitters only read `http`; the
remaining sections are carried verbatim). -/
structure TraefikConfigS where
  tls : Option JValue := none
  http : Option HttpConfigS := none
  tcp : Option JValue := none
  udp : Option JValue := none
  entrypoints : Option JValue := none
  providers : Option JValue := none
  api : Option JValue := none
  accesslog : Option JValue := none
  experimental : Option JValue := none
  log : Option JValue := none
  metrics : Option JValue := none
  tracing : Option JValue := none
  certificatesresolvers : Option JValue := none
  spiffe : Option JValue := none

/-- generic association-list lookup (Python dict `.get` / `[]`). -/
def alookup {α : Type} : List (String × α) → String → Option α
  | [], _ => none
  | (k0, v0) :: rest, k => if k0 = k then some v0 else alookup rest k

/-! ## rule2locationkey (src/dlabel/traefik.py 118-127) -/

/-- Match `^NAME(\x60<body>\x60)$` where `pre` is the literal `NAME(\x60`
opener: the body is non-empty and backtick-free, mirroring the anchored
regexes with group `[^\x60]+`. -/
def matchWrapped (pre : String) (rule : String) : Option String :=
  if pyStartsWith rule pre then
    let mid := rule.drop pre.length
    if pyEndsWith mid "`)" then
      let body := mid.dropRight 2
      if body ≠ "" ∧ ¬ pyContainsChar body '`' then some body else none
    else none
  else none

/-- `rule2locationkey(rule)`: `PathPrefix` yields `[prefix]`, `Path` yields
`["=", path]`, anything else the empty key. -/
def rule2locationkey (rule : String) : List String :=
  match matchWrapped "PathPrefix(`" rule with
  | some p => [p]
  | none =>
    match matchWrapped "Path(`" rule with
    | some p => ["=", p]
    | none => []

/-! ## get_backend (src/dlabel/traefik.py 227-238) -/

/-- Python `str()` of an optional string (None prints as "None" inside an
f-string). -/
def pyOptStr : Option String → String
  | some s => s
  | none => "None"

/-- Python truthiness of an optional int field. -/
def optIntTruthy : Option Int → Bool
  | some n => n ≠ 0
  | none => false

/-- `get_backend(svc, ipaddr)`: collect backend URLs.  `loadbalancer.servers`
is declared `list[dict]`, so the comprehension `x.url` reads an attribute
off a plain dict and raises AttributeError as soon as the list is
non-empty. -/
def get_backend (svc : HttpServiceS) (ipaddr : Bool) :
    Except PyErr (List String) := do
  match svc.loadbalancer with
  | none => .ok []
  | some lb => do
    let urls1 ← match lb.servers with
      | some (_ :: _) => .error .attributeError
      | _ => .ok ([] : List String)
    let urls2 := match lb.server with
      | some srv =>
        if optIntTruthy srv.port then
          let port := (srv.port).getD 0
          if ipaddr then
            [pyOptStr srv.ipaddress ++ ":" ++ toString port]
          else
            [pyOptStr srv.host ++ ":" ++ toString port]
        else []
      | none => []
    .ok (urls1 ++ urls2)

/-! ## middleware translation (src/dlabel/traefik.py 31-115, 323-341) -/

/-- A simple nginx directive (no sub-block), as the dicts the emitter
appends inside `location` and `upstream` blocks. -/
structure NgxLeaf where
  directive : String
  args : List JValue := []

/-- A directive appended to the target `server` block: optionally a
sub-block of simple directives, a comment and a line number, mirroring the
crossplane dict shape. -/
structure NgxDir where
  directive : String
  args : List JValue := []
  block : Option (List NgxLeaf) := none
  comment : Option String := none
  line : Option Nat := none

/-- Python truthiness of the `compress` union value (a model instance is
always truthy). -/
def compressTruthy : Option CompressVal → Bool
  | some (.flag b) => b
  | some (.conf _) => true
  | none => false

/-- truthiness of an optional list field. -/
def optListTruthy {α : Type} : Option (List α) → Bool
  | some (_ :: _) => true
  | _ => false

/-- `middleware_compress(mdl)`. -/
def middleware_compress (mdl : HttpMiddlewareS) : List NgxLeaf :=
  if compressTruthy mdl.compress then
    let base : List NgxLeaf := [{ directive := "gzip", args := [.str "on"] }]
    match mdl.compress with
    | some (.conf c) =>
      let types :=
        if optListTruthy c.includedcontenttypes then
          [{ directive := "gzip_types",
             args := (c.includedcontenttypes.getD []).map JValue.str }]
        else ([] : List NgxLeaf)
      let minlen :=
        if optIntTruthy c.minresponsebodybytes then
          [{ directive := "gzip_min_length",
             args := [JValue.int ((c.minresponsebodybytes).getD 0)] }]
        else ([] : List NgxLeaf)
      base ++ types ++ minlen
    | _ => base
  else []

/-- `middleware_headers(mdl)`. -/
def middleware_headers (mdl : HttpMiddlewareS) : List NgxLeaf :=
  match mdl.headers with
  | none => []
  | some h =>
    let req := (h.customrequestheaders.getD []).map fun kv =>
      ({ directive := "proxy_set_header",
         args := [JValue.str kv.1, JValue.str kv.2] } : NgxLeaf)
    let res := (h.customresponseheaders.getD []).map fun kv =>
      ({ directive := "add_header",
         args := [JValue.str kv.1, JValue.str kv.2] } : NgxLeaf)
    req ++ res

/-- `re.escape` of Python 3.7+: only regex-special characters are escaped
with a backslash. -/
def pyReEscape (s : String) : String :=
  ⟨s.data.foldr (fun c acc =>
    if c ∈ ['(', ')', '[', ']', '?', '*', '+', '-', '|', '^', '$', '\\',
             '.', '&', '~', '#', ' ', '\t', '\n', '\r', '\x0b', '\x0c',
             '\x7b', '\x7d']
    then '\\' :: c :: acc else c :: acc) []⟩

/-- `middleware2nginx(mdlconf)`: compress and header directives per
middleware, one accumulated rewrite for strip- and add-prefix. -/
def middleware2nginx (mdlconf : List HttpMiddlewareS) : List NgxLeaf :=
  let step := fun (st : List NgxLeaf × List String × String)
      (mdl : HttpMiddlewareS) =>
    let (res, delPrefs, addPref) := st
    let res := res ++ middleware_compress mdl ++ middleware_headers mdl
    let delPrefs := delPrefs ++
      (match HttpMiddlewareS.stripprefix mdl with
       | some sp =>
         if optListTruthy sp.prefixes then (sp.prefixes.getD []).map pyReEscape
         else []
       | none => []) ++
      (match HttpMiddlewareS.stripprefixregex mdl with
       | some sr => if optListTruthy sr.regex then sr.regex.getD [] else []
       | none => [])
    let addPref :=
      match HttpMiddlewareS.addprefix mdl with
      | some ap =>
        match ap.prefix_ with
        | some p => if p ≠ "" then p else addPref
        | none => addPref
      | none => addPref
    (res, delPrefs, addPref)
  let (res, delPrefs, addPref) := mdlconf.foldl step ([], [], "/")
  if delPrefs ≠ [] ∨ addPref ≠ "/" then
    res ++ [{ directive := "rewrite",
              args := [.str (String.intercalate "|" delPrefs ++ "(.*)"),
                       .str (addPref ++ "$1"), .str "break"] }]
  else res

/-- `middleware_compress_apache(mdl)`. -/
def middleware_compress_apache (mdl : HttpMiddlewareS) : List String :=
  if compressTruthy mdl.compress then
    match mdl.compress with
    | some (.conf c) =>
      if optListTruthy c.includedcontenttypes then
        ["AddOutputFilterByType DEFLATE " ++
         String.intercalate " " (c.includedcontenttypes.getD [])]
      else ["SetOutputFilter DEFLATE"]
    | _ => ["SetOutputFilter DEFLATE"]
  else []

/-- `middleware_headers_apache(mdl)`. -/
def middleware_headers_apache (mdl : HttpMiddlewareS) : List String :=
  match mdl.headers with
  | none => []
  | some h =>
    (h.customrequestheaders.getD []).map
      (fun kv => "RequestHeader append " ++ kv.1 ++ " " ++ kv.2) ++
    (h.customresponseheaders.getD []).map
      (fun kv => "Header append " ++ kv.1 ++ " " ++ kv.2)

/-- `middleware2apache(mdlconf)`. -/
def middleware2apache (mdlconf : List HttpMiddlewareS) : List String :=
  let step := fun (st : List String × List String × String)
      (mdl : HttpMiddlewareS) =>
    let (res, delPrefs, addPref) := st
    let res := res ++ middleware_compress_apache mdl ++
      middleware_headers_apache mdl
    let delPrefs := delPrefs ++
      (match HttpMiddlewareS.stripprefix mdl with
       | some sp =>
         if optListTruthy sp.prefixes then (sp.prefixes.getD []).map pyReEscape
         else []
       | none => []) ++
      (match HttpMiddlewareS.stripprefixregex mdl with
       | some sr => if optListTruthy sr.regex then sr.regex.getD [] else []
       | none => [])
    let addPref :=
      match HttpMiddlewareS.addprefix mdl with
      | some ap =>
        match ap.prefix_ with
        | some p => if p ≠ "" then p else addPref
        | none => addPref
      | none => addPref
    (res, delPrefs, addPref)
  let (res, delPrefs, addPref) := mdlconf.foldl step ([], [], "/")
  if delPrefs ≠ [] ∨ addPref ≠ "/" then
    res ++ ["RewriteEngine On",
            "RewriteRule " ++ String.intercalate "|" delPrefs ++ "(.*) " ++
            addPref ++ "$1"]
  else res

/-! ## traefik2nginx (src/dlabel/traefik.py 241-309)

The embedding covers the emission loop: the directives appended to the
located `server` block of the base configuration.  Parsing the base
configuration, the assertion on the server block and writing the built text
are I/O concerns outside the embedding. -/

/-- resolve middleware names: strip an `@provider` suffix, drop unresolved
names. -/
def resolveMiddles (middlewares : List (String × HttpMiddlewareS))
    (names : List String) : List HttpMiddlewareS :=
  names.filterMap fun x => alookup middlewares (pySplitOnce x '@').1

/-- the location keys of a router rule: split on `||`, parse each
alternative. -/
def locationKeys (rule : String) : List (List String) :=
  (pySplitSeq rule "||").map rule2locationkey

/-- the `#` comment summarizing one route. -/
def routeComment (location : String) (location_keys : List (List String))
    (backend_urls : List String) : NgxDir :=
  { directive := "#",
    comment := some (" " ++ location ++ ": " ++
      String.intercalate ", "
        (location_keys.map (String.intercalate " ")) ++
      " -> " ++ String.intercalate ", " backend_urls),
    line := some 1 }

/-- one `location` block: the key as args, the shared body as block. -/
def mkLocationDir (blk : List NgxLeaf) (lk : List String) : NgxDir :=
  { directive := "location", args := lk.map JValue.str, block := some blk }

/-- The body of the nginx emission loop for one `(router, service)` pair
(src/dlabel/traefik.py 274-306): append the summary comment, an `upstream`
block when there are several backends (`backend_urls[0]` raises IndexError
when there are none), then one `location` block per location key — also for
an empty (unsupported) key. -/
def nginxPairBlocks (location : String) (route : HttpRouterS)
    (svc : HttpServiceS) (middlewares : List (String × HttpMiddlewareS))
    (ipaddr : Bool) : Except PyErr (List NgxDir) := do
  let rule := route.rule.getD ""
  let location_keys := locationKeys rule
  let middles := resolveMiddles middlewares (route.middlewares.getD [])
  let backend_urls ← get_backend svc ipaddr
  let comment := routeComment location location_keys backend_urls
  let (upstreams, backend) ←
    if backend_urls.length > 1 then
      .ok ([({ directive := "upstream", args := [.str location],
               block := some (backend_urls.map fun x =>
                 { directive := "server", args := [.str x] }) } : NgxDir)],
           location)
    else
      match backend_urls with
      | b :: _ => .ok (([] : List NgxDir), b)
      | [] => .error .indexError
  let blk : List NgxLeaf :=
    { directive := "proxy_pass", args := [.str ("http://" ++ backend)] } ::
    middleware2nginx middles
  .ok ([comment] ++ upstreams ++ location_keys.map (mkLocationDir blk))

/-- The keys iterated by the emitters:
`set(services.keys()) & set(routers.keys())`.  Python iterates a set in
unspecified hash order; the embedding fixes the services insertion order —
every property proved about the emitters is insensitive to this order. -/
def pairKeys (services : List (String × HttpServiceS))
    (routers : List (String × HttpRouterS)) : List String :=
  (services.map Prod.fst).filter fun k => routers.any fun r => r.1 == k

/-- the nginx emission loop over all pairs. -/
def nginxLoop (services : List (String × HttpServiceS))
    (routers : List (String × HttpRouterS))
    (middlewares : List (String × HttpMiddlewareS)) (ipaddr : Bool) :
    List String → Except PyErr (List NgxDir)
  | [] => .ok []
  | loc :: rest => do
    let route ← match alookup routers loc with
      | some r => .ok r
      | none => .error .keyError
    let svc ← match alookup services loc with
      | some s => .ok s
      | none => .error .keyError
    let blocks ← nginxPairBlocks loc route svc middlewares ipaddr
    let more ← nginxLoop services routers middlewares ipaddr rest
    .ok (blocks ++ more)

/-- `traefik2nginx` (emission core): raise when the tree has no http
section, then emit the directives appended to the target server block. -/
def traefik2nginxCore (cfg : TraefikConfigS) (ipaddr : Bool) :
    Except PyErr (List NgxDir) := do
  let http ← match cfg.http with
    | some h => .ok h
    | none => .error .exception
  let services := http.services.getD []
  let routers := http.routers.getD []
  let middlewares := http.middlewares.getD []
  nginxLoop services routers middlewares ipaddr (pairKeys services routers)

/-! ## traefik2apache (src/dlabel/traefik.py 344-399)

The embedding covers the `res` lines built by the loop; reading the base
virtual-host text and splicing the lines into it are I/O concerns outside
the embedding. -/

/-- The `<Location …>` section for one location key: a single-element key
opens a prefix section, a key starting with `=` opens an exact-match
section — `loc[0]` on the empty (unsupported) key raises IndexError. -/
def apacheLocLines (backend_to : String) (mdlconf : List String)
    (loc : List String) : Except PyErr (List String) := do
  let opener ← match loc with
    | [] => .error .indexError
    | [p] => .ok ["<Location " ++ p ++ ">"]
    | p :: q :: _ =>
      if p = "=" then
        .ok ["<Location ~ \"^" ++ pyReEscape q ++ "$\">"]
      else
        .ok ([] : List String)
  .ok (opener ++
    ["  ProxyPass " ++ backend_to, "  ProxyPassReverse " ++ backend_to] ++
    mdlconf.map ("  " ++ ·) ++ ["</Location>"])

/-- fold `apacheLocLines` over the location keys. -/
def apacheLocFold (backend_to : String) (mdlconf : List String) :
    List (List String) → Except PyErr (List String)
  | [] => .ok []
  | loc :: rest => do
    let lines ← apacheLocLines backend_to mdlconf loc
    let more ← apacheLocFold backend_to mdlconf rest
    .ok (lines ++ more)

/-- The body of the apache emission loop for one `(router, service)` pair
(src/dlabel/traefik.py 369-398): a single backend is proxied directly, any
other count produces a `<Proxy balancer://…>` block (possibly with no
members), then one section per location key. -/
def apachePairLines (location : String) (route : HttpRouterS)
    (svc : HttpServiceS) (middlewares : List (String × HttpMiddlewareS))
    (ipaddr : Bool) : Except PyErr (List String) := do
  let rule := route.rule.getD ""
  let location_keys := locationKeys rule
  let backend_urls ← get_backend svc ipaddr
  let (pre, backend_to) :=
    match backend_urls with
    | [b] => (([] : List String), "http://" ++ b)
    | _ =>
      (["<Proxy balancer://" ++ location ++ ">"] ++
       backend_urls.map (fun b => "  BalancerMember http://" ++ b) ++
       ["</Proxy>"],
       "balancer://" ++ location)
  let middles := resolveMiddles middlewares (route.middlewares.getD [])
  let mdlconf := middleware2apache middles
  let locLines ← apacheLocFold backend_to mdlconf location_keys
  .ok (pre ++ locLines)

/-- the apache emission loop over all pairs. -/
def apacheLoop (services : List (String × HttpServiceS))
    (routers : List (String × HttpRouterS))
    (middlewares : List (String × HttpMiddlewareS)) (ipaddr : Bool) :
    List String → Except PyErr (List String)
  | [] => .ok []
  | loc :: rest => do
    let route ← match alookup routers loc with
      | some r => .ok r
      | none => .error .keyError
    let svc ← match alookup services loc with
      | some s => .ok s
      | none => .error .keyError
    let lines ← apachePairLines loc route svc middlewares ipaddr
    let more ← apacheLoop services routers middlewares ipaddr rest
    .ok (lines ++ more)

/-- `traefik2apache` (emission core): raise when the tree has no http
section, then emit the lines spliced into the virtual host. -/
def traefik2apacheCore (cfg : TraefikConfigS) (ipaddr : Bool) :
    Except PyErr (List String) := do
  let http ← match cfg.http with
    | some h => .ok h
    | none => .error .exception
  let services := http.services.getD []
  let routers := http.routers.getD []
  let middlewares := http.middlewares.getD []
  apacheLoop services routers middlewares ipaddr (pairKeys services routers)

/-! ## PurePosixPath (pathlib, external stdlib)

`pathlib` paths are modelled by their anchor and normalized parts: splitting
on "/" drops empty and "." components (the POSIX double-slash special case
is not modelled; the sources only handle engine-reported absolute paths). -/

/-- normalized path components. -/
def pathSegs (s : String) : List String :=
  (pySplitChar s '/').filter fun x => x ≠ "" ∧ x ≠ "."

/-- a `PurePosixPath`: absolute flag and normalized components. -/
structure PyPath where
  abs : Bool
  segs : List String
  deriving Repr, BEq, DecidableEq

/-- `Path(s)`. -/
def parsePath (s : String) : PyPath :=
  ⟨pyStartsWith s "/", pathSegs s⟩

/-- `str(path)`. -/
def pathStr (p : PyPath) : String :=
  if p.abs then "/" ++ String.intercalate "/" p.segs
  else if p.segs = [] then "."
  else String.intercalate "/" p.segs

/-- `Path(p) in Path(t).parents`: the parents are the proper prefixes with
the same anchor. -/
def pyInParents (p t : PyPath) : Bool :=
  p.abs == t.abs && p.segs.isPrefixOf t.segs &&
    decide (p.segs.length < t.segs.length)

/-- `a.is_relative_to(b)`. -/
def pyIsRelativeTo (a b : PyPath) : Bool :=
  a.abs == b.abs && b.segs.isPrefixOf a.segs

/-- `str(a.relative_to(b))` (callers establish `is_relative_to` first). -/
def pyRelativeTo (a b : PyPath) : PyPath :=
  ⟨false, a.segs.drop b.segs.length⟩

/-! ## fnmatch (external stdlib, modelled from the spec: shell-glob
semantics with `*`, `?`, `[seq]` and `[!seq]`; fuel-driven recursion, the
fuel is always sufficient for the pattern and string lengths involved). -/

/-- parse a `[...]` character class: negation flag, member characters,
remaining pattern; `none` when the class is unterminated (a literal `[`). -/
def parseCls (l : List Char) : Option (Bool × List Char × List Char) :=
  let (neg, l1) := match l with
    | '!' :: t => (true, t)
    | _ => (false, l)
  let (lead, l2) := match l1 with
    | ']' :: t => ([']'], t)
    | _ => ([], l1)
  let body := l2.takeWhile (· ≠ ']')
  match l2.dropWhile (· ≠ ']') with
  | [] => none
  | _ :: rest => some (neg, lead ++ body, rest)

/-- glob matching with fuel. -/
def globMatch : Nat → List Char → List Char → Bool
  | 0, _, _ => false
  | _ + 1, [], s => s.isEmpty
  | fuel + 1, '*' :: p, s =>
    globMatch fuel p s ||
      (match s with
       | [] => false
       | _ :: t => globMatch fuel ('*' :: p) t)
  | fuel + 1, '?' :: p, s =>
    match s with
    | [] => false
    | _ :: t => globMatch fuel p t
  | fuel + 1, '[' :: p, s =>
    match parseCls p with
    | some (neg, cls, rest) =>
      match s with
      | [] => false
      | c :: t => (neg ^^ cls.contains c) && globMatch fuel rest t
    | none =>
      match s with
      | '[' :: t => globMatch fuel p t
      | _ => false
  | fuel + 1, c :: p, s =>
    match s with
    | c' :: t => c = c' && globMatch fuel p t
    | [] => false

/-- `fnmatch.fnmatch(target, pattern)` (POSIX: no case folding). -/
def fnmatch (target pattern : String) : Bool :=
  globMatch (2 * (pattern.length + target.length) + 2) pattern.data
    target.data

/-! ## compose helpers (src/dlabel/compose.py 11-54) -/

/-- generic Python dict assignment on an association list. -/
def asetKey {α : Type} : List (String × α) → String → α → List (String × α)
  | [], k, v => [(k, v)]
  | (k0, v0) :: rest, k, v =>
    if k0 = k then (k0, v) :: rest else (k0, v0) :: asetKey rest k v

/-- `envlist2map(env)`: split each entry once on `=`, keep pairs; later
entries overwrite earlier ones (dict assignment). -/
def envlist2map (env : List String) : List (String × String) :=
  env.foldl (fun res i =>
    match pySplitOnce i '=' with
    | (k, some v) => asetKey res k v
    | (_, none) => res) []

/-- One port binding dict (`HostIp` / `HostPort`; an absent key reads as
None). -/
structure PortBinding where
  hostip : Option String := none
  hostport : Option String := none
  deriving Repr, BEq

/-- truthiness of `v[0].get("HostIp")`: None and "" are falsy. -/
def optStrTruthy : Option String → Bool
  | some s => s ≠ ""
  | none => false

/-- an optional string as the Python value in a dict (absent key → None). -/
def optStrJ : Option String → JValue
  | some s => .str s
  | none => .null

/-- `portmap2compose(pmap)` (src/dlabel/compose.py 20-40): a `…/tcp` port
with exactly one binding renders as `host:container` or
`ip:host:container`; anything else unpacks `k.split("/", 1)` (ValueError
without a separator), coerces the target with `int` (ValueError) and reads
`v[0]` (IndexError with no bindings) to build the long form. -/
def portmap2compose (pmap : List (String × List PortBinding)) :
    Except PyErr (List JValue) :=
  match pmap with
  | [] => .ok []
  | (k, v) :: rest => do
    let entry ←
      if pyEndsWith k "/tcp" ∧ v.length = 1 then
        let ctport := (pySplitOnce k '/').1
        let b := v.headD {}
        if optStrTruthy b.hostip then
          .ok (JValue.str (pyOptStr b.hostip ++ ":" ++
            pyOptStr b.hostport ++ ":" ++ ctport))
        else
          .ok (JValue.str (pyOptStr b.hostport ++ ":" ++ ctport))
      else do
        let (target, protoOpt) := pySplitOnce k '/'
        let proto ← match protoOpt with
          | some p => .ok p
          | none => .error .valueError
        let n ← pyInt target
        let b0 ← match v with
          | b :: _ => .ok b
          | [] => .error .indexError
        .ok (JValue.obj [("target", .int n),
                         ("published", optStrJ b0.hostport),
                         ("protocol", .str proto),
                         ("mode", .str "host")])
    let more ← portmap2compose rest
    .ok (entry :: more)

/-- `convdict(convmap, fromdict, todict)`: copy truthy values under the
mapped keys. -/
def convdict (convmap : List (String × String))
    (fromdict : List (String × JValue)) (todict : List (String × JValue)) :
    List (String × JValue) :=
  convmap.foldl (fun td kv =>
    match JValue.lookup fromdict kv.1 with
    | some v => if v.truthy then asetKey td kv.2 v else td
    | none => td) todict

/-- `convdict_differ(convmap, dict_img, dict_ctn, todict)`: copy the
container value when the key is present and differs from the image value
(an absent key reads as None on either side). -/
def convdict_differ (convmap : List (String × String))
    (dict_img dict_ctn : List (String × JValue))
    (todict : List (String × JValue)) : List (String × JValue) :=
  convmap.foldl (fun td kv =>
    if (dict_ctn.any fun e => e.1 == kv.1) &&
        !((JValue.lookup dict_img kv.1).getD .null ==
          (JValue.lookup dict_ctn kv.1).getD .null) then
      asetKey td kv.2 ((JValue.lookup dict_ctn kv.1).getD .null)
    else td) todict

/-! ## compose (src/dlabel/compose.py 85-209) -/

/-- One entry of `hostconfig["Mounts"]` (`Type`, `Source`, `Target`,
`VolumeOptions`; absent keys read as None). -/
structure MountS where
  type_ : Option String := none
  source : Option String := none
  target : Option String := none
  volumeOptions : Option JValue := none
  deriving Repr, BEq

/-- The container snapshot as `compose` reads it.  `configDict` and
`imageDict` carry the `Config` mappings consulted by `convdict_differ`
(`Cmd`, `Entrypoint`), `hostExtra` the host-config keys consulted by
`convdict` (resource caps and capabilities). -/
structure CContainer where
  name : String
  configImage : Option String := none
  configLabels : List (String × String) := []
  configEnv : List String := []
  configDict : List (String × JValue) := []
  imageLabels : List (String × String) := []
  imageEnv : List String := []
  imageVolumes : List String := []
  imageDict : List (String × JValue) := []
  binds : List String := []
  mounts : List MountS := []
  portBindings : List (String × List PortBinding) := []
  networkMode : Option String := none
  restartName : Option String := none
  hostExtra : List (String × JValue) := []

/-- Python `s.split(c, 2)`: at most three parts. -/
def pySplitMax2 (s : String) (c : Char) : List String :=
  match pySplitOnce s c with
  | (a, none) => [a]
  | (a, some r) =>
    match pySplitOnce r c with
    | (b, none) => [a, b]
    | (b, some rest) => [a, b, rest]

/-- The binds loop of `compose` for one `src:dst[:mode]` entry: skip image
volumes, rewrite sources under the working dir to `./relative`, keep the
mode unless it is `rw` (the file copying done under `--output --volume` is
an I/O effect outside the embedding).  `v[1]` raises IndexError when the
entry has no `:` (in the image-volume test when image volumes exist,
otherwise at `dest`); `v[2]` raises IndexError when a 1-part entry reaches
the mode test. -/
def bindStep (imgvol : List String) (wdir : PyPath) (i : String) :
    Except PyErr (Option String) := do
  let v := pySplitMax2 i ':'
  let skip ←
    if imgvol ≠ [] then do
      let v1 ← match v.get? 1 with
        | some x => .ok x
        | none => .error .indexError
      .ok (decide (v1 ∈ imgvol))
    else
      .ok false
  if skip then
    .ok none
  else do
    let src := parsePath (v.headD "")
    let dest ← match v.get? 1 with
      | some x => .ok x
      | none => .error .indexError
    let srcStr :=
      if pyIsRelativeTo src wdir then
        "./" ++ pathStr (pyRelativeTo src wdir)
      else
        pathStr src
    if v.length = 2 then
      .ok (some (srcStr ++ ":" ++ dest))
    else do
      let mode ← match v.get? 2 with
        | some x => .ok x
        | none => .error .indexError
      if mode = "rw" then
        .ok (some (srcStr ++ ":" ++ dest))
      else if v.length = 3 then
        .ok (some (srcStr ++ ":" ++ dest ++ ":" ++ mode))
      else
        .ok none

/-- fold `bindStep` over the binds. -/
def bindsFold (imgvol : List String) (wdir : PyPath) :
    List String → Except PyErr (List String)
  | [] => .ok []
  | i :: rest => do
    let entry ← bindStep imgvol wdir i
    let more ← bindsFold imgvol wdir rest
    .ok ((entry.elim [] ([·])) ++ more)

/-- the image-volume skip test of the mounts loop:
`imgvol and m.get("Target") in imgvol`. -/
def skipMount (imgvol : List String) (m : MountS) : Bool :=
  !imgvol.isEmpty && (match m.target with
    | some t => imgvol.contains t
    | none => false)

/-- The mounts loop of `compose` for one mount: skip targets that are image
volumes, strip the `<project>_` prefix from the source (AttributeError when
the source is None, TypeError via `proj + "_"` when the project label is
None), record named volumes, append `volname:target`. -/
def mountStep (imgvol : List String) (proj : Option String)
    (st : List String × List (String × JValue)) (m : MountS) :
    Except PyErr (List String × List (String × JValue)) := do
  let (cvols, vols) := st
  if skipMount imgvol m then
    .ok (cvols, vols)
  else do
    let volname0 ← match m.source with
      | some s => .ok s
      | none => .error .attributeError
    let projStr ← match proj with
      | some p => .ok p
      | none => .error .typeError
    let volname :=
      if pyStartsWith volname0 (projStr ++ "_") then
        volname0.drop (projStr.length + 1)
      else volname0
    let vols :=
      if m.type_ = some "volume" then
        asetKey vols volname ((m.volumeOptions).getD (.obj []))
      else vols
    let cvols :=
      match m.target with
      | some t => if t ≠ "" then cvols ++ [volname ++ ":" ++ t] else cvols
      | none => cvols
    .ok (cvols, vols)

/-- fold `mountStep` over the mounts. -/
def mountsFold (imgvol : List String) (proj : Option String) :
    List MountS → List String × List (String × JValue) →
    Except PyErr (List String × List (String × JValue))
  | [], st => .ok st
  | m :: rest, st => do
    let st ← mountStep imgvol proj st m
    mountsFold imgvol proj rest st

/-- the resource/capability copy table of `compose`. -/
def convmap_hostconfig : List (String × String) :=
  [("ExtraHosts", "extra_hosts"), ("CpuShares", "cpu_shares"),
   ("CpuPeriod", "cpu_period"), ("CpuPercent", "cpu_percent"),
   ("CpuCount", "cpu_count"), ("CpuQuota", "cpu_quota"),
   ("CpuRealtimeRuntime", "cpu_rt_runtime"),
   ("CpuRealtimePeriod", "cpu_rt_period"), ("CpusetCpus", "cpuset"),
   ("CapAdd", "cap_add"), ("CapDrop", "cap_drop"),
   ("CgroupParent", "cgroup_parent"), ("GroupAdd", "group_add"),
   ("Privileged", "privileged")]

/-- the label remap table of `compose`. -/
def convmap_label : List (String × String) :=
  [("com.docker.compose.depends_on", "depends_on")]

/-- the differential copy table of `compose`. -/
def diffcopy_config : List (String × String) :=
  [("Cmd", "command"), ("Entrypoint", "entrypoint")]

/-- truthiness of an optional string label value (None and "" are falsy). -/
def projTruthy (proj : Option String) : Bool :=
  match proj with
  | some p => p ≠ ""
  | none => false

/-- The per-container body of `compose`: either skip the container
(`Option.none`) or produce the service name, the service mapping and the
contributions to the top-level `volumes` and `networks` sections. -/
def composeContainer (allFlag : Bool) (project : String) (c : CContainer) :
    Except PyErr (Option (String × JValue × List (String × JValue) ×
      List (String × JValue))) := do
  let labels := c.configLabels
  let proj := lookupStr labels "com.docker.compose.project"
  let wdir := parsePath
    ((lookupStr labels "com.docker.compose.project.working_dir").getD "/")
  if ¬allFlag ∧ ¬projTruthy proj then
    .ok none
  else if ¬allFlag ∧ projTruthy proj ∧
      ¬fnmatch (proj.getD "") project then
    .ok none
  else do
    let name := (lookupStr labels "com.docker.compose.service").getD c.name
    let labelsPopped := labels.filter fun kv =>
      ¬(lookupStr c.imageLabels kv.1 = some kv.2)
    let labels := labelsPopped.filter fun kv =>
      ¬pyStartsWith kv.1 "com.docker.compose."
    let envs0 := envlist2map c.configEnv
    let imgenv := envlist2map c.imageEnv
    let envs := envs0.filter fun kv => ¬(lookupStr imgenv kv.1 = some kv.2)
    let imgvol := c.imageVolumes
    let cvols1 ← bindsFold imgvol wdir c.binds
    let (cvols, vols) ← mountsFold imgvol proj c.mounts (cvols1, [])
    let pyProj := proj.getD ""
    let nwTest := !projTruthy proj ||
      (match c.networkMode with
       | some s => s != pyProj ++ "_default"
       | none => true)
    let nwmode0 : Option String := if nwTest then c.networkMode else none
    let (nets, cnws, nwmode) :=
      match nwmode0 with
      | some s =>
        if s ≠ "host" ∧ s ≠ "none" then
          ([(s, JValue.obj [])], [s], (none : Option String))
        else ([], [], nwmode0)
      | none => ([], [], none)
    let svc : List (String × JValue) := [("image", optStrJ c.configImage)]
    let svc := if projTruthy proj ∧ ¬pyStartsWith c.name (pyProj ++ "_") then
        svc ++ [("container_name", .str c.name)]
      else svc
    let svc := match nwmode with
      | some s => if s ≠ "" then svc ++ [("network_mode", .str s)] else svc
      | none => svc
    let svc := if cvols ≠ [] then
        svc ++ [("volumes", .arr (cvols.map JValue.str))]
      else svc
    let svc := if cnws ≠ [] then
        svc ++ [("networks", .arr (cnws.map JValue.str))]
      else svc
    let svc ←
      if !c.portBindings.isEmpty then do
        let ports ← portmap2compose c.portBindings
        .ok (svc ++ [("ports", .arr ports)])
      else .ok svc
    let svc := match c.restartName with
      | some r => if r ≠ "no" then svc ++ [("restart", .str r)] else svc
      | none => svc
    let svc := if labels ≠ [] then
        svc ++ [("labels", .obj (labels.map fun kv => (kv.1, .str kv.2)))]
      else svc
    let svc := if envs ≠ [] then
        svc ++ [("environment", .obj (envs.map fun kv => (kv.1, .str kv.2)))]
      else svc
    let svc := convdict convmap_hostconfig c.hostExtra svc
    let svc := convdict convmap_label
      (labelsPopped.map fun kv => (kv.1, JValue.str kv.2)) svc
    let svc := convdict_differ diffcopy_config c.imageDict c.configDict svc
    .ok (some (name, .obj svc, vols, nets))

/-- the accumulated sections of `compose`. -/
structure ComposeAcc where
  svcs : List (String × JValue) := []
  vols : List (String × JValue) := []
  nets : List (String × JValue) := []
  deriving Repr, BEq

/-- the container loop of `compose`. -/
def composeFold (allFlag : Bool) (project : String) :
    List CContainer → ComposeAcc → Except PyErr ComposeAcc
  | [], acc => .ok acc
  | c :: rest, acc => do
    let r ← composeContainer allFlag project c
    let acc ←
      match r with
      | none => .ok acc
      | some (name, svc, vols, nets) =>
        .ok { svcs := asetKey acc.svcs name svc,
              vols := vols.foldl (fun a kv => asetKey a kv.1 kv.2) acc.vols,
              nets := nets.foldl (fun a kv => asetKey a kv.1 kv.2) acc.nets }
    composeFold allFlag project rest acc

/-- `compose(client, output, all, project, volume)`: the returned document
(file output under `--output` is an I/O effect outside the embedding;
`--volume` only drives that effect). -/
def compose (allFlag : Bool) (project : String) (client : List CContainer) :
    Except PyErr JValue := do
  let acc ← composeFold allFlag project client {}
  let res := if !acc.svcs.isEmpty then [("services", JValue.obj acc.svcs)]
    else []
  let res := res ++
    (if !acc.vols.isEmpty then [("volumes", JValue.obj acc.vols)] else [])
  let res := res ++
    (if !acc.nets.isEmpty then [("networks", JValue.obj acc.nets)] else [])
  .ok (.obj res)

/-! ## util.py: mode bits, is_already, get_diff (src/dlabel/util.py) -/

/-- the Go `io/fs` mode bits (src/dlabel/util.py 11-25). -/
def modebits : List (String × Nat) :=
  [("dir", 2 ^ 31), ("append", 2 ^ 30), ("exclusive", 2 ^ 29),
   ("temporary", 2 ^ 28), ("symlink", 2 ^ 27), ("device", 2 ^ 26),
   ("namedpipe", 2 ^ 25), ("socket", 2 ^ 24), ("setuid", 2 ^ 23),
   ("setgid", 2 ^ 22), ("chardev", 2 ^ 21), ("sticky", 2 ^ 20),
   ("irregular", 2 ^ 19)]

/-- the non-regular mode names. -/
def nonreg : List String :=
  ["dir", "device", "namedpipe", "socket", "chardev", "irregular"]

/-- `special_modes(mode)`: the set of mode names present plus the
permission bits. -/
def special_modes (mode : Nat) : List String × Nat :=
  ((modebits.filter fun kv => mode / kv.2 % 2 = 1).map Prod.fst,
   mode % 512)

/-- the stat of a path as `container.get_archive` reports it (`mode` and
`linkTarget`; an empty target stands for a falsy one). -/
structure FileStat where
  mode : Nat := 0
  linkTarget : String := ""
  deriving Repr, BEq, DecidableEq

/-- `is_match(patterns, target)`. -/
def is_match (patterns : List String) (target : String) : Bool :=
  patterns.any fun p => fnmatch target p

/-- `is_already(prev, target)`: some element of `prev` is a proper ancestor
of `target`. -/
def is_already (prev : List String) (target : String) : Bool :=
  prev.any fun p => pyInParents (parsePath p) (parsePath target)

/-- Python set insertion on the string sets of `get_diff`. -/
def setAdd (l : List String) (s : String) : List String :=
  if s ∈ l then l else l ++ [s]

/-- the four accumulators of `get_diff`. -/
structure DiffState where
  deleted : List String := []
  added : List String := []
  modified : List String := []
  link : List (String × String) := []
  deriving Repr, BEq, DecidableEq

/-- `do_kind0(modified, path, link, container)`: a modified path is skipped
when any non-regular bit is set, recorded as a link when it is a symlink
with a target, added to `modified` otherwise — with no ancestor check. -/
def do_kind0 (statOf : String → FileStat) (st : DiffState) (path : String) :
    DiffState :=
  let special := (special_modes (statOf path).mode).1
  if nonreg.any fun s => special.contains s then st
  else if special.contains "symlink" ∧ (statOf path).linkTarget ≠ "" then
    { st with link := asetKey st.link path (statOf path).linkTarget }
  else
    { st with modified := setAdd st.modified path }

/-- `do_kind1(added, path, link, container)`: an added path is skipped when
an ancestor is already in `added` (directories are allowed in). -/
def do_kind1 (statOf : String → FileStat) (st : DiffState) (path : String) :
    DiffState :=
  if is_already st.added path then st
  else
    let special := (special_modes (statOf path).mode).1
    if (nonreg.filter (· ≠ "dir")).any (fun s => special.contains s) then st
    else if special.contains "symlink" ∧ (statOf path).linkTarget ≠ "" then
      { st with link := asetKey st.link path (statOf path).linkTarget }
    else
      { st with added := setAdd st.added path }

/-- `do_kind2(deleted, path)`: a deleted path is skipped when an ancestor is
already in `deleted`. -/
def do_kind2 (st : DiffState) (path : String) : DiffState :=
  if is_already st.deleted path then st
  else { st with deleted := setAdd st.deleted path }

/-- one `(Path, Kind)` entry of the engine diff. -/
def diffStep (ignore : List String) (statOf : String → FileStat)
    (st : DiffState) (e : String × Nat) : DiffState :=
  if is_match ignore e.1 then st
  else if e.2 = 2 then do_kind2 st e.1
  else if e.2 = 1 then do_kind1 statOf st e.1
  else if e.2 = 0 then do_kind0 statOf st e.1
  else st

/-- `get_diff(container, ignore)` over the engine-reported diff sequence
(src/dlabel/util.py 126-148); the archive stats are an oracle input. -/
def get_diff (diff : List (String × Nat)) (ignore : List String)
    (statOf : String → FileStat) : DiffState :=
  diff.foldl (diffStep ignore statOf) {}

/-- the ancestor-freeness claimed of the image-delta path sets: no element
has a proper ancestor in the same set. -/
def AncestorFree (l : List String) : Prop :=
  ∀ p ∈ l, ∀ q ∈ l, pyInParents (parsePath q) (parsePath p) = false

instance (l : List String) : Decidable (AncestorFree l) := by
  unfold AncestorFree
  infer_instance

/-! ## Predicates and concrete inventory instances used by the theorems -/

/-- read the value at a nested address of a dumped tree. -/
def getPath : List String → JValue → Option JValue
  | [], v => some v
  | k :: rest, .obj kvs =>
    match JValue.lookup kvs k with
    | some v => getPath rest v
    | none => none
  | _ :: _, _ => none

/-- the diff sequence lists every proper ancestor before its descendants: no
later entry is a proper ancestor of an earlier one. -/
def LaterNotAncestor : List (String × Nat) → Prop
  | [] => True
  | e :: rest =>
    (∀ f ∈ rest, pyInParents (parsePath f.1) (parsePath e.1) = false) ∧
    LaterNotAncestor rest

instance instDecidableLNA :
    (l : List (String × Nat)) → Decidable (LaterNotAncestor l)
  | [] => isTrue trivial
  | e :: rest =>
    have : Decidable (LaterNotAncestor rest) := instDecidableLNA rest
    inferInstanceAs (Decidable
      ((∀ f ∈ rest, pyInParents (parsePath f.1) (parsePath e.1) = false) ∧
        LaterNotAncestor rest))

/-- the stat test a kind-0 (modified) path must pass to enter `modified`:
no non-regular bit and not a symlink with a target. -/
def modifiedTest (statOf : String → FileStat) (p : String) : Bool :=
  let special := (special_modes (statOf p).mode).1
  !(nonreg.any fun s => special.contains s) &&
    !(special.contains "symlink" && (statOf p).linkTarget ≠ "")

/-- the labels of container `proj1_ctn1` of the repository test
`tests/test_traefik.py::TestTraefikDump::test_label`. -/
def testLabelCtn1Labels : List (String × String) :=
  [("label123", "valule123"),
   ("traefik.enable", "true"),
   ("traefik.http.routers.ctn1.entrypoints", "web"),
   ("traefik.http.routers.ctn1.middlewares", "mdl"),
   ("traefik.http.routers.ctn1.rule", "Path(`/`)"),
   ("traefik.http.services.ctn1.loadbalancer.server.port", "8080")]

/-- the traefik-image container of the repository test
`tests/test_traefik.py::TestTraefikDump::test_args` (its argument vector,
image tag `traefik:v2`, one network address). -/
def testArgsCtn : DContainer :=
  { name := "proj1_ctn1", imageTags := ["traefik:v2"], labels := [],
    args := ["--api=true", "--api.insecure=true",
             "--entrypoints.web.address=:80", "--providers.docker=true",
             "--providers.docker.exposedbydefault=false",
             "--accesslog=true", "--accesslog.format=json",
             "--experimental.http3=true"],
    env := [], networks := [("xyz", "1.2.3.4")], files := fun _ => [] }

/-- a container whose image reports no tags. -/
def noTagCtn : DContainer :=
  { name := "ctn0", imageTags := [], labels := [], args := [], env := [],
    networks := [], files := fun _ => [] }

/-- an ingress tree with one (router, service) pair carrying no rule and no
backend data at all. -/
def emptyPairCfg : TraefikConfigS :=
  { http := some { routers := some [("r1", {})],
                   services := some [("r1", {})] } }

/-- a router whose rule has the unsupported form `Host(...)`. -/
def hostRuleRouter : HttpRouterS := { rule := some "Host(`xyz`)" }

/-- a label-derived single backend `h:80`. -/
def portSrv : HttpLoadBalancerServerS :=
  { host := some "h", ipaddress := some "1.2.3.4", port := some 80 }

/-- a service with a single label-derived backend `h:80`. -/
def portSvc : HttpServiceS :=
  { loadbalancer := some { server := some portSrv } }

/-- a compose container outside any compose project carrying one named
volume mount. -/
def noProjCtn : CContainer :=
  { name := "c1",
    mounts := [{ type_ := some "volume", source := some "vol1",
                 target := some "/data" }] }

/-! ## Supporting lemmas -/

@[simp] theorem exceptBind_ok {α β : Type} (x : α)
    (f : α → Except PyErr β) : (Except.ok x >>= f) = f x := rfl

@[simp] theorem exceptBind_err {α β : Type} (e : PyErr)
    (f : α → Except PyErr β) :
    ((Except.error e : Except PyErr α) >>= f) = Except.error e := rfl

@[simp] theorem exceptMap_ok {α β : Type} (x : α) (f : α → β) :
    (Except.ok x : Except PyErr α).map f = .ok (f x) := rfl

@[simp] theorem exceptMap_err {α β : Type} (e : PyErr) (f : α → β) :
    (Except.error e : Except PyErr α).map f = .error e := rfl

@[simp] theorem exceptBind_ok' {α β : Type} (x : α)
    (f : α → Except PyErr β) : (Except.ok x).bind f = f x := rfl

@[simp] theorem exceptBind_err' {α β : Type} (e : PyErr)
    (f : α → Except PyErr β) :
    (Except.error e : Except PyErr α).bind f = Except.error e := rfl

theorem argsFold_ok_eq (args : List String) (acc r : JValue)
    (h : argsFold args acc = .ok r) : r = acc := by
  induction args with
  | nil => simpa [argsFold] using h.symm
  | cons a rest ih =>
    by_cases hc : pyStartsWith a "--" ∧ pyContainsChar a '='
    · simp [argsFold, hc, setbyaddr, Except.bind] at h
    · simp [argsFold, hc, Except.bind] at h
      exact ih h

theorem envsFold_ok_eq (env : List String) (acc r : JValue)
    (h : envsFold env acc = .ok r) : r = acc := by
  induction env with
  | nil => simpa [envsFold] using h.symm
  | cons a rest ih =>
    by_cases hc : pyStartsWith a "TRAEFIK_" ∧ pyContainsChar a '='
    · simp [envsFold, hc, setbyaddr, Except.bind] at h
    · simp [envsFold, hc, Except.bind] at h
      exact ih h

theorem labelStep_ok_eq (host ipaddr res : JValue) (k v : String)
    (r : JValue) (h : labelStep host ipaddr res k v = .ok r) : r = res := by
  by_cases h1 : k = "traefik.enable"
  · simpa [labelStep, h1] using h.symm
  · by_cases h2 : pyStartsWith k "traefik." = true
    · rcases h3 : matchPortKey ((pySplitOnce k '.').2.getD "") with _ | name
      · simp [labelStep, h1, h2, h3, setbyaddr, Except.bind] at h
      · simp [labelStep, h1, h2, h3, setbyaddr, Except.bind] at h
    · simpa [labelStep, h1, h2] using h.symm

theorem labelGo_ok_eq (labels : List (String × String))
    (host ipaddr res r : JValue)
    (h : traefik_label_config.go host ipaddr labels res = .ok r) : r = res := by
  induction labels generalizing res with
  | nil => simpa [traefik_label_config.go] using h.symm
  | cons kv rest ih =>
    rcases hs : labelStep host ipaddr res kv.1 kv.2 with e | res'
    · simp [traefik_label_config.go, hs, Except.bind] at h
    · simp [traefik_label_config.go, hs, Except.bind] at h
      rw [ih res' h, labelStep_ok_eq host ipaddr res kv.1 kv.2 res' hs]

theorem label_config_ok_eq (labels : List (String × String))
    (host ipaddr r : JValue)
    (h : traefik_label_config labels host ipaddr = .ok r) : r = emptyModel :=
  labelGo_ok_eq labels host ipaddr emptyModel r h

theorem tcc_error (c : DContainer) :
    ∃ e, traefik_container_config c = .error e := by
  rcases h1 : argsFold c.args emptyModel with e | a
  · exact ⟨e, by simp [traefik_container_config, h1, Except.bind]⟩
  · rcases h2 : envsFold c.env emptyModel with e | b
    · exact ⟨e, by simp [traefik_container_config, h1, h2, Except.bind]⟩
    · refine ⟨.attributeError, ?_⟩
      have ha := argsFold_ok_eq c.args emptyModel a h1
      have hb := envsFold_ok_eq c.env emptyModel b h2
      subst ha; subst hb
      simp only [traefik_container_config, h1, h2, exceptBind_ok]
      simp [modelAttr, emptyModel, JValue.lookup]

theorem modelMerge_empty :
    modelMerge traefikConfigTy emptyModel emptyModel = .ok emptyModel := rfl

theorem dumpStep_init_ok (c : DContainer) (st : DumpState)
    (h : dumpStep DumpState.init c = .ok st) : st = DumpState.init := by
  rcases ht : c.imageTags[0]? with _ | t0
  · simp [dumpStep, ht, Except.bind] at h
  · by_cases htag : pyInStr "traefik" t0 = true
    · obtain ⟨e, he⟩ := tcc_error c
      simp [dumpStep, ht, htag, he, Except.bind] at h
    · by_cases hen : lookupStr c.labels "traefik.enable" = some "true"
      · rcases hl : traefik_label_config c.labels (.str c.name)
            (.str (match c.networks.map (·.2) with
                   | a :: _ => a
                   | [] => "")) with e | lbl
        · simp [dumpStep, ht, htag, hen, hl, Except.bind] at h
        · have hlbl := label_config_ok_eq _ _ _ _ hl
          subst hlbl
          simp [dumpStep, ht, htag, hen, hl, DumpState.init,
            modelMerge_empty] at h
          simp [← h, DumpState.init]
      · simp [dumpStep, ht, htag, hen, Except.bind] at h
        simp [← h]

theorem dumpFold_init_ok (cs : List DContainer) (st : DumpState)
    (h : dumpFold cs DumpState.init = .ok st) : st = DumpState.init := by
  induction cs with
  | nil => simpa [dumpFold] using h.symm
  | cons c rest ih =>
    rcases hs : dumpStep DumpState.init c with e | st'
    · simp [dumpFold, hs, Except.bind] at h
    · have := dumpStep_init_ok c st' hs
      subst this
      simp [dumpFold, hs, Except.bind] at h
      exact ih h

theorem dumpFold_append (a b : List DContainer) (st : DumpState) :
    dumpFold (a ++ b) st =
      (dumpFold a st).bind (fun st' => dumpFold b st') := by
  induction a generalizing st with
  | nil => simp [dumpFold, Except.bind]
  | cons c rest ih =>
    rcases hs : dumpStep st c with e | st'
    · simp [dumpFold, hs, Except.bind]
    · simp [dumpFold, hs, Except.bind, ih]

/-! ## Claim theorems -/

/-- C1: the claim expects the label extraction of a `traefik.enable=true`
container carrying `traefik.http.services.<name>.loadbalancer.server.port`
to synthesize host/ipaddress/port entries (as the repository test
`test_label` also asserts); instead `traefik_label_config` passes a list
address to `Model.setbyaddr`, whose `address.split(".")` raises
AttributeError on the very input of that test. -/
theorem C1_label_extraction_raises :
    traefik_label_config testLabelCtn1Labels (.str "proj1_ctn1")
      (.str "1.2.3.4") = .error .attributeError := rfl

/-- C3: the claim expects the `--key=value` arguments of a traefik-image
container to accumulate into `from_args` and reach the final tree (as the
repository test `test_args` also asserts); instead `traefik_dump` on that
test's container raises AttributeError (list address into
`Model.setbyaddr`). -/
theorem C3_args_extraction_raises :
    traefik_dump [testArgsCtn] = .error .attributeError := rfl

/-- C9: whenever `traefik_dump` returns a tree, that tree has no top-level
`enable` entry: label extraction skips the key `traefik.enable`. -/
theorem C9_no_enable_in_dump (client : List DContainer) (t : JValue)
    (h : traefik_dump client = .ok t) : modelAttr t "enable" = none := by
  rcases hf : dumpFold client DumpState.init with e | st
  · simp [traefik_dump, hf] at h
  · have := dumpFold_init_ok client st hf
    subst this
    simp only [traefik_dump, hf, exceptBind_ok] at h
    simp [DumpState.init, modelMerge_empty] at h
    simp [← h]
    rfl

/-- witness for C9 at the empty inventory. -/
theorem C9_no_enable_in_dump_witness :
    traefik_dump [] = .ok emptyModel ∧
      modelAttr emptyModel "enable" = none :=
  ⟨rfl, C9_no_enable_in_dump [] emptyModel rfl⟩

/-- C10: a listed container whose image has an empty tag list makes
`traefik_dump` raise IndexError at the `"traefik" in ctn.image.tags[0]`
test, provided the containers before it processed without an exception; the
whole aggregation pass fails. -/
theorem C10_empty_tags_raises (pre rest : List DContainer) (c : DContainer)
    (st : DumpState) (hpre : dumpFold pre DumpState.init = .ok st)
    (hc : c.imageTags = []) :
    traefik_dump (pre ++ c :: rest) = .error .indexError := by
  simp [traefik_dump, dumpFold_append, hpre, dumpFold, dumpStep, hc]

/-- witness for C10 at a one-container inventory. -/
theorem C10_empty_tags_raises_witness :
    dumpFold [] DumpState.init = .ok DumpState.init ∧
      noTagCtn.imageTags = [] ∧
      traefik_dump [noTagCtn] = .error .indexError :=
  ⟨rfl, rfl, C10_empty_tags_raises [] [] noTagCtn DumpState.init rfl rfl⟩

/-- C2 counterexample: on a tree whose single (router, service) pair yields
an empty backend-URL list, both emitters raise an uncaught IndexError —
`traefik2nginx` at `backend_urls[0]`, `traefik2apache` at `loc[0]` of the
empty location key of the empty rule — contradicting both the blanket
never-raise claim and the annotated-comment completion for nginx. -/
theorem C2_counterexample :
    traefik2nginxCore emptyPairCfg false = .error .indexError ∧
      traefik2apacheCore emptyPairCfg false = .error .indexError :=
  ⟨rfl, rfl⟩

/-- C4 counterexample: a set-by-address of the literal string "false" at an
address whose leaf is untyped (an extra key inside `dict[str, Any]`) keeps
the string "false"; it does not become the boolean false. -/
theorem C4_counterexample :
    setbyaddr traefikConfigTy emptyModel
      (.str "providers.docker.exposedbydefault") (.str "false") =
    .ok (.obj [("providers", .obj [("docker",
      .obj [("exposedbydefault", .str "false")])])]) := rfl

/-- C5 counterexample: a router whose single rule alternative has the
unsupported form `Host(...)` is not skipped: the nginx emitter still
appends one `location` block (with empty args) for it, and the apache
emitter raises IndexError instead of emitting no section. -/
theorem C5_counterexample :
    (nginxPairBlocks "r1" hostRuleRouter portSvc [] false).map
        (fun ds => (ds.filter fun d => d.directive == "location").length) =
      .ok 1 ∧
    apachePairLines "r1" hostRuleRouter portSvc [] false =
      .error .indexError :=
  ⟨rfl, rfl⟩

/-- C6 counterexample: when a deleted child is reported before its deleted
parent, both enter the `deleted` set, which is then not ancestor-free. -/
theorem C6_counterexample :
    (get_diff [("/a/b", 2), ("/a", 2)] [] (fun _ => {})).deleted =
      ["/a/b", "/a"] ∧
    ¬ AncestorFree (get_diff [("/a/b", 2), ("/a", 2)] []
      (fun _ => {})).deleted :=
  ⟨rfl, by decide⟩

/-- C7 counterexample: a port with an empty binding list is not rendered as
a long-form object; `portmap2compose` raises IndexError at `v[0]`. -/
theorem C7_counterexample :
    portmap2compose [("443/udp", [])] = .error .indexError := rfl

theorem composeFold_append (a b : List CContainer) (allFlag : Bool)
    (project : String) (acc : ComposeAcc) :
    composeFold allFlag project (a ++ b) acc =
      (composeFold allFlag project a acc).bind
        (fun acc' => composeFold allFlag project b acc') := by
  induction a generalizing acc with
  | nil => simp [composeFold]
  | cons c rest ih =>
    rcases hs : composeContainer allFlag project c with e | r
    · simp [composeFold, hs]
    · rcases r with _ | ⟨name, svc, vols, nets⟩ <;>
        simp [composeFold, hs, ih]

theorem mountsFold_typeError (imgvol : List String) (ms₁ ms₂ : List MountS)
    (m0 : MountS) (src : String) (st : List String × List (String × JValue))
    (hskip : ∀ m ∈ ms₁, skipMount imgvol m = true)
    (hm0 : skipMount imgvol m0 = false) (hsrc : m0.source = some src) :
    mountsFold imgvol none (ms₁ ++ m0 :: ms₂) st = .error .typeError := by
  induction ms₁ generalizing st with
  | nil =>
    simp [mountsFold, mountStep, hm0, hsrc]
  | cons m rest ih =>
    have hm := hskip m (by simp)
    simp [mountsFold, mountStep, hm]
    exact ih _ (fun x hx => hskip x (List.mem_cons_of_mem m hx))

/-- C8: under `--all`, a container without a `com.docker.compose.project`
label whose mounts reach the project-prefix strip makes `compose` raise an
uncaught TypeError at `proj + "_"` (None + str) instead of producing a
document, provided the containers before it processed without an
exception. -/
theorem C8_compose_raises_typeError (pre rest : List CContainer)
    (c : CContainer) (acc : ComposeAcc) (project : String)
    (cv : List String) (ms₁ ms₂ : List MountS) (m0 : MountS) (src : String)
    (hpre : composeFold true project pre {} = .ok acc)
    (hproj : lookupStr c.configLabels "com.docker.compose.project" = none)
    (hbinds : bindsFold c.imageVolumes
      (parsePath ((lookupStr c.configLabels
        "com.docker.compose.project.working_dir").getD "/")) c.binds =
      .ok cv)
    (hm : c.mounts = ms₁ ++ m0 :: ms₂)
    (hskip : ∀ m ∈ ms₁, skipMount c.imageVolumes m = true)
    (hm0 : skipMount c.imageVolumes m0 = false)
    (hsrc : m0.source = some src) :
    compose true project (pre ++ c :: rest) = .error .typeError := by
  have hc : composeContainer true project c = .error .typeError := by
    simp only [composeContainer, hproj]
    simp only [hbinds, exceptBind_ok]
    rw [hm]
    simp [mountsFold_typeError c.imageVolumes ms₁ ms₂ m0 src _ hskip hm0
      hsrc]
  simp [compose, composeFold_append, hpre, composeFold, hc]

/-- witness for C8 at a one-container inventory. -/
theorem C8_compose_raises_typeError_witness :
    lookupStr noProjCtn.configLabels "com.docker.compose.project" = none ∧
      compose true "*" [noProjCtn] = .error .typeError :=
  ⟨rfl, C8_compose_raises_typeError [] [] noProjCtn {} "*" [] []
    [] { type_ := some "volume", source := some "vol1",
         target := some "/data" } "vol1" rfl rfl rfl rfl
    (by intro m hm; cases hm) rfl rfl⟩

theorem getPath_setDict (parts : List String) (v : JValue)
    (h : parts ≠ []) : getPath parts (setDict parts v) = some v := by
  induction parts with
  | nil => exact absurd rfl h
  | cons k rest ih =>
    cases rest with
    | nil => simp [setDict, getPath, JValue.lookup]
    | cons k2 r2 =>
      simp [setDict, getPath, JValue.lookup, ih (by simp)]

/-- C4 (amended): the literal conversion `"true"` → empty mapping is applied
to the leaf of the auxiliary tree before merging, at every address; the
string "false" becomes the boolean false where the declared field type is
boolean (here `HttpRouter.tls`), and a digit string becomes an integer
where the declared field type is integer (here
`loadbalancer.server.port`) — at untyped positions "false" stays a string
(see the counterexample). -/
theorem C4_amended :
    (∀ (parts : List String) (v : JValue), parts ≠ [] →
      getPath parts (setDict parts
        (if v == JValue.str "true" then JValue.obj [] else v)) =
        some (if v == JValue.str "true" then JValue.obj [] else v)) ∧
    setbyaddr traefikConfigTy emptyModel (.str "http.routers.r1.tls")
      (.str "false") =
      .ok (.obj [("http", .obj [("routers", .obj [("r1",
        .obj [("tls", .bool false)])])])]) ∧
    setbyaddr traefikConfigTy emptyModel
      (.str "http.services.s1.loadbalancer.server.port") (.str "8080") =
      .ok (.obj [("http", .obj [("services", .obj [("s1",
        .obj [("loadbalancer", .obj [("server",
          .obj [("port", .int 8080)])])])])])]) :=
  ⟨fun parts _v h => getPath_setDict parts _ h, rfl, rfl⟩

/-- witness for C4 (amended) at the address `api` and value "true". -/
theorem C4_amended_witness :
    (["api"] : List String) ≠ [] ∧
      getPath ["api"] (setDict ["api"]
        (if JValue.str "true" == JValue.str "true" then JValue.obj []
         else JValue.str "true")) =
        some (if JValue.str "true" == JValue.str "true" then JValue.obj []
              else JValue.str "true") :=
  ⟨by decide, C4_amended.1 ["api"] (.str "true") (by decide)⟩

theorem strData_append (a b : String) :
    (a ++ b).data = a.data ++ b.data := rfl

theorem not_mem_of_containsChar_false {s : String} {c : Char}
    (h : pyContainsChar s c = false) : c ∉ s.data := by
  intro hc
  have h2 : s.data.elem c = true := List.elem_iff.mpr hc
  have h3 : s.data.elem c = false := h
  rw [h2] at h3
  exact Bool.noConfusion h3

theorem splitOnceAux_sep (c : Char) (t r : List Char) (ht : c ∉ t) :
    splitOnceAux c (t ++ c :: r) = some (t, r) := by
  induction t with
  | nil => simp [splitOnceAux]
  | cons a t' ih =>
    have ha : ¬(a = c) := fun hac => ht (by simp [hac])
    simp [splitOnceAux, ha, ih (fun hm => ht (by simp [hm]))]

theorem pySplitOnce_sep (t proto : String) (c : Char)
    (ht : pyContainsChar t c = false) :
    pySplitOnce (t ++ String.singleton c ++ proto) c = (t, some proto) := by
  have hd : (t ++ String.singleton c ++ proto).data =
      t.data ++ c :: proto.data := by
    simp [strData_append, String.singleton]
  rw [pySplitOnce, hd,
    splitOnceAux_sep c t.data proto.data (not_mem_of_containsChar_false ht)]

theorem unique_sep {x : Char} (a : List Char) {b : List Char}
    (c : List Char) {d : List Char} (ha : x ∉ a) (hb : x ∉ b)
    (h : a ++ x :: b = c ++ x :: d) : a = c ∧ b = d := by
  induction a generalizing c with
  | nil =>
    cases c with
    | nil => simpa using h
    | cons y c' =>
      simp at h
      obtain ⟨hxy, hrest⟩ := h
      exfalso
      exact hb (hrest ▸ List.mem_append_right c' (by simp [hxy]))
  | cons y a' ih =>
    cases c with
    | nil =>
      simp at h
      exact absurd (by simp [h.1]) (fun hm => ha hm)
    | cons z c' =>
      simp at h
      obtain ⟨hyz, hrest⟩ := h
      have := ih c' (fun hm => ha (List.mem_cons_of_mem y hm)) hrest
      exact ⟨by simp [hyz, this.1], this.2⟩

theorem pyEndsWith_sep (t proto : String)
    (ht : pyContainsChar t '/' = false)
    (hp : pyContainsChar proto '/' = false) :
    pyEndsWith (t ++ "/" ++ proto) "/tcp" = (proto == "tcp") := by
  have hd : (t ++ "/" ++ proto).data = t.data ++ '/' :: proto.data := by
    simp [strData_append]
  rcases hq : (proto == "tcp") with _ | _
  · rw [pyEndsWith, hd]
    rcases hs : ("/tcp".data.isSuffixOf (t.data ++ '/' :: proto.data)) with
      _ | _
    · rfl
    · exfalso
      have hsuf := (List.isSuffixOf_iff_suffix.mp hs)
      obtain ⟨pre, hpre⟩ := hsuf
      have huni := unique_sep t.data pre
        (not_mem_of_containsChar_false ht)
        (not_mem_of_containsChar_false hp) hpre.symm
      have : proto = "tcp" := by
        have hdata : proto.data = "tcp".data := by
          have := huni.2
          simpa using this
        cases proto
        cases hdata
        rfl
      rw [this] at hq
      simp at hq
  · have hq' : proto = "tcp" := by
      exact eq_of_beq hq
    subst hq'
    rw [pyEndsWith, hd]
    apply List.isSuffixOf_iff_suffix.mpr
    exact ⟨t.data, by simp⟩

/-- C7 (amended): for every port key of the form `<int>/<protocol>` with at
least one binding, the tcp single-binding cases render the short string
forms (HostIp present and non-empty selects `ip:host:container`) and every
other such port renders the long-form object; with zero bindings the
renderer instead raises IndexError (see the counterexample). -/
theorem C7_amended (t proto : String) (v : List PortBinding) (n : Int)
    (ht : pyContainsChar t '/' = false)
    (hp : pyContainsChar proto '/' = false)
    (hn : pyToInt t = some n)
    (hv : v ≠ []) :
    portmap2compose [(t ++ "/" ++ proto, v)] =
      .ok [if proto = "tcp" ∧ v.length = 1 then
             (if optStrTruthy (v.headD {}).hostip then
                JValue.str (pyOptStr (v.headD {}).hostip ++ ":" ++
                  pyOptStr (v.headD {}).hostport ++ ":" ++ t)
              else
                JValue.str (pyOptStr (v.headD {}).hostport ++ ":" ++ t))
           else
             JValue.obj [("target", .int n),
                         ("published", optStrJ (v.headD {}).hostport),
                         ("protocol", .str proto),
                         ("mode", .str "host")]] := by
  have hew : pyEndsWith (t ++ "/" ++ proto) "/tcp" = (proto == "tcp") :=
    pyEndsWith_sep t proto ht hp
  have hsp : pySplitOnce (t ++ "/" ++ proto) '/' = (t, some proto) :=
    pySplitOnce_sep t proto '/' ht
  rcases v with _ | ⟨b, rest⟩
  · exact absurd rfl hv
  · by_cases hc : proto = "tcp" ∧ rest = []
    · obtain ⟨hp1, hp2⟩ := hc
      subst hp1
      subst hp2
      simp only [portmap2compose, hew, hsp, pyInt, hn]
      by_cases hb : optStrTruthy b.hostip = true <;> simp [hb]
    · have hcond2 : ¬(pyEndsWith (t ++ "/" ++ proto) "/tcp" = true ∧
          rest.length + 1 = 1) := by
        intro hx
        rw [hew] at hx
        exact hc ⟨eq_of_beq hx.1, by simpa using hx.2⟩
      have hcond3 : ¬(proto = "tcp" ∧ rest.length + 1 = 1) := by
        intro hx
        exact hc ⟨hx.1, by simpa using hx.2⟩
      have hcond4 : ¬(pyEndsWith (t ++ "/" ++ proto) "/tcp" = true ∧
          rest = []) := by
        intro hx
        exact hc ⟨eq_of_beq (hew ▸ hx.1), hx.2⟩
      have hcond5 : ¬(proto = "tcp" ∧ rest = []) := hc
      simp [portmap2compose, hsp, pyInt, hn, hcond2, hcond3, hcond4,
        hcond5]

/-- witness for C7 (amended) at `8080/tcp` with one binding. -/
theorem C7_amended_witness :
    pyContainsChar "8080" '/' = false ∧
      pyToInt "8080" = some 8080 ∧
      portmap2compose [("8080" ++ "/" ++ "tcp",
        [({ hostport := some "80" } : PortBinding)])] =
        .ok [.str "80:8080"] :=
  ⟨rfl, rfl,
    C7_amended "8080" "tcp" [{ hostport := some "80" }] 8080 rfl rfl rfl
      (List.cons_ne_nil _ _)⟩

theorem nginx_empty_backend (location : String) (route : HttpRouterS)
    (svc : HttpServiceS) (middlewares : List (String × HttpMiddlewareS))
    (ipaddr : Bool) (h : get_backend svc ipaddr = .ok []) :
    nginxPairBlocks location route svc middlewares ipaddr =
      .error .indexError := by
  simp [nginxPairBlocks, h]

theorem apacheLocLines_ok (b : String) (m : List String)
    (loc : List String) (h : loc ≠ []) :
    ∃ ls, apacheLocLines b m loc = .ok ls := by
  rcases hr : apacheLocLines b m loc with e | ls
  · exfalso
    match loc, h with
    | [p], _ => simp [apacheLocLines] at hr
    | p :: q :: r, _ =>
      by_cases hp : p = "=" <;> simp [apacheLocLines, hp] at hr
  · exact ⟨ls, rfl⟩

theorem apacheLocLines_err (b : String) (m : List String) :
    apacheLocLines b m [] = .error .indexError := rfl

theorem apacheLocFold_ok (b : String) (m : List String)
    (keys : List (List String)) (h : ∀ lk ∈ keys, lk ≠ []) :
    ∃ ls, apacheLocFold b m keys = .ok ls := by
  induction keys with
  | nil => exact ⟨[], rfl⟩
  | cons k rest ih =>
    obtain ⟨l1, h1⟩ := apacheLocLines_ok b m k (h k (by simp))
    obtain ⟨l2, h2⟩ := ih (fun x hx => h x (List.mem_cons_of_mem k hx))
    exact ⟨l1 ++ l2, by simp [apacheLocFold, h1, h2]⟩

theorem apacheLocFold_err (b : String) (m : List String)
    (keys : List (List String)) (h : [] ∈ keys) :
    apacheLocFold b m keys = .error .indexError := by
  induction keys with
  | nil => cases h
  | cons k rest ih =>
    rcases List.mem_cons.mp h with hk | hk
    · simp [apacheLocFold, ← hk, apacheLocLines_err]
    · by_cases hke : k = []
      · simp [apacheLocFold, hke, apacheLocLines_err]
      · obtain ⟨l1, h1⟩ := apacheLocLines_ok b m k hke
        simp [apacheLocFold, h1, ih hk]

theorem apachePairLines_unfold (location : String) (route : HttpRouterS)
    (svc : HttpServiceS) (middlewares : List (String × HttpMiddlewareS))
    (ipaddr : Bool) (bs : List String)
    (h : get_backend svc ipaddr = .ok bs) :
    apachePairLines location route svc middlewares ipaddr =
      (apacheLocFold
        (match bs with
         | [b] => "http://" ++ b
         | _ => "balancer://" ++ location)
        (middleware2apache (resolveMiddles middlewares
          ((route.middlewares).getD [])))
        (locationKeys ((route.rule).getD ""))).map
        (fun l2 =>
          (match bs with
           | [_] => ([] : List String)
           | _ => ["<Proxy balancer://" ++ location ++ ">"] ++
             bs.map (fun b => "  BalancerMember http://" ++ b) ++
             ["</Proxy>"]) ++ l2) := by
  rcases bs with _ | ⟨b, rest⟩
  · rcases hf : apacheLocFold ("balancer://" ++ location)
        (middleware2apache (resolveMiddles middlewares
          ((route.middlewares).getD [])))
        (locationKeys ((route.rule).getD "")) with e | ls <;>
      simp [apachePairLines, h, hf]
  · rcases rest with _ | ⟨b2, r2⟩
    · rcases hf : apacheLocFold ("http://" ++ b)
          (middleware2apache (resolveMiddles middlewares
            ((route.middlewares).getD [])))
          (locationKeys ((route.rule).getD "")) with e | ls <;>
        simp [apachePairLines, h, hf]
    · rcases hf : apacheLocFold ("balancer://" ++ location)
          (middleware2apache (resolveMiddles middlewares
            ((route.middlewares).getD [])))
          (locationKeys ((route.rule).getD "")) with e | ls <;>
        simp [apachePairLines, h, hf]

/-- C2 (amended): the emitters are not exception-free.  For every
(router, service) pair whose backend-URL list is empty, the nginx emitter
raises an uncaught IndexError at `backend_urls[0]` instead of completing
with only the annotation comment; the apache emitter completes on such a
pair exactly when every rule alternative parses to a non-empty location
key, and raises IndexError itself when any alternative is unsupported. -/
theorem C2_amended (location : String) (route : HttpRouterS)
    (svc : HttpServiceS) (middlewares : List (String × HttpMiddlewareS))
    (ipaddr : Bool) (h : get_backend svc ipaddr = .ok []) :
    nginxPairBlocks location route svc middlewares ipaddr =
      .error .indexError ∧
    ((∀ lk ∈ locationKeys ((route.rule).getD ""), lk ≠ []) →
      ∃ ls, apachePairLines location route svc middlewares ipaddr =
        .ok ls) ∧
    (([] : List String) ∈ locationKeys ((route.rule).getD "") →
      apachePairLines location route svc middlewares ipaddr =
        .error .indexError) := by
  refine ⟨nginx_empty_backend location route svc middlewares ipaddr h,
    fun hk => ?_, fun hbad => ?_⟩
  · obtain ⟨ls, hf⟩ := apacheLocFold_ok ("balancer://" ++ location)
      (middleware2apache (resolveMiddles middlewares
        ((route.middlewares).getD [])))
      (locationKeys ((route.rule).getD "")) hk
    rw [apachePairLines_unfold location route svc middlewares ipaddr [] h,
      hf]
    exact ⟨_, rfl⟩
  · rw [apachePairLines_unfold location route svc middlewares ipaddr [] h,
      apacheLocFold_err _ _ _ hbad]
    rfl

/-- witness for C2 (amended) at an empty (router, service) pair. -/
theorem C2_amended_witness :
    get_backend {} false = .ok [] ∧
      ([] : List String) ∈ locationKeys ((({} : HttpRouterS).rule).getD "")
      ∧ apachePairLines "r1" {} {} [] false = .error .indexError :=
  ⟨rfl, by decide,
    (C2_amended "r1" {} {} [] false rfl).2.2 (by decide)⟩

theorem locBlocks_filter_map (keys : List (List String))
    (blk : List NgxLeaf) :
    ((keys.map (mkLocationDir blk)).filter
      (fun d => d.directive == "location")).map NgxDir.args =
      keys.map fun lk => lk.map JValue.str := by
  induction keys with
  | nil => rfl
  | cons k rest ih => simp [mkLocationDir, ih]

theorem nginx_blocks_args (location : String) (route : HttpRouterS)
    (svc : HttpServiceS) (middlewares : List (String × HttpMiddlewareS))
    (ipaddr : Bool) (bs : List String)
    (h : get_backend svc ipaddr = .ok bs) (hbs : bs ≠ []) :
    ∃ blks, nginxPairBlocks location route svc middlewares ipaddr =
        .ok blks ∧
      (blks.filter fun d => d.directive == "location").map NgxDir.args =
        (locationKeys ((route.rule).getD "")).map
          fun lk => lk.map JValue.str := by
  rcases hr : nginxPairBlocks location route svc middlewares ipaddr with
    e | blks
  · exfalso
    rcases bs with _ | ⟨b, rest⟩
    · exact absurd rfl hbs
    · rcases rest with _ | ⟨b2, r2⟩ <;> simp [nginxPairBlocks, h] at hr
  · refine ⟨blks, rfl, ?_⟩
    rcases bs with _ | ⟨b, rest⟩
    · exact absurd rfl hbs
    · rcases rest with _ | ⟨b2, r2⟩ <;>
        · simp [nginxPairBlocks, h] at hr
          subst hr
          simp [routeComment, locBlocks_filter_map]

theorem ploc_open1 (p : String) :
    pyStartsWith ("<Location " ++ p ++ ">") "<Location" = true := rfl

theorem ploc_open2 (p : String) :
    pyStartsWith ("<Location ~ \"^" ++ p ++ "$\">") "<Location" = true := rfl

theorem ploc_pp (x : String) :
    pyStartsWith ("  " ++ x) "<Location" = false := rfl

theorem ploc_close : pyStartsWith "</Location>" "<Location" = false := rfl

theorem ploc_proxy (x : String) :
    pyStartsWith ("<Proxy balancer://" ++ x ++ ">") "<Location" = false :=
  rfl

theorem ploc_closep : pyStartsWith "</Proxy>" "<Location" = false := rfl

theorem filter_indent (m : List String) :
    ((m.map fun x => "  " ++ x).filter
      fun l => pyStartsWith l "<Location") = [] := by
  induction m with
  | nil => rfl
  | cons a rest ih => simp [ploc_pp, ih]

theorem filter_balancer (bs : List String) :
    ((bs.map fun b => "  BalancerMember http://" ++ b).filter
      fun l => pyStartsWith l "<Location") = [] := by
  induction bs with
  | nil => rfl
  | cons a rest ih =>
    have h1 : pyStartsWith ("  BalancerMember http://" ++ a)
        "<Location" = false := rfl
    simp [h1, ih]

theorem apacheLocLines_count (b : String) (m : List String)
    (loc : List String) (ls : List String)
    (hsh : (∃ p, loc = [p]) ∨ (∃ p, loc = ["=", p]))
    (h : apacheLocLines b m loc = .ok ls) :
    (ls.filter fun l => pyStartsWith l "<Location").length = 1 := by
  rcases hsh with ⟨p, rfl⟩ | ⟨p, rfl⟩
  · simp [apacheLocLines] at h
    subst h
    have h1 : pyStartsWith ("  ProxyPass " ++ b) "<Location" = false := rfl
    have h2 : pyStartsWith ("  ProxyPassReverse " ++ b) "<Location" =
      false := rfl
    simp [ploc_open1, h1, h2, ploc_close, filter_indent]
  · simp [apacheLocLines] at h
    subst h
    have h1 : pyStartsWith ("  ProxyPass " ++ b) "<Location" = false := rfl
    have h2 : pyStartsWith ("  ProxyPassReverse " ++ b) "<Location" =
      false := rfl
    simp [ploc_open2, h1, h2, ploc_close, filter_indent]

theorem apacheLocFold_count (b : String) (m : List String)
    (keys : List (List String)) (ls : List String)
    (hsh : ∀ lk ∈ keys, (∃ p, lk = [p]) ∨ (∃ p, lk = ["=", p]))
    (h : apacheLocFold b m keys = .ok ls) :
    (ls.filter fun l => pyStartsWith l "<Location").length =
      keys.length := by
  induction keys generalizing ls with
  | nil =>
    simp [apacheLocFold] at h
    subst h
    rfl
  | cons k rest ih =>
    have hk := hsh k (by simp)
    have hkne : k ≠ [] := by
      rcases hk with ⟨p, rfl⟩ | ⟨p, rfl⟩ <;> simp
    obtain ⟨l1, h1⟩ := apacheLocLines_ok b m k hkne
    rcases h2 : apacheLocFold b m rest with e | l2
    · simp [apacheLocFold, h1, h2] at h
    · simp [apacheLocFold, h1, h2] at h
      subst h
      have hc1 := apacheLocLines_count b m k l1 hk h1
      have hc2 := ih l2 (fun x hx => hsh x (List.mem_cons_of_mem k hx)) h2
      simp [List.filter_append, hc1, hc2]
      omega

theorem rule2locationkey_shape (r : String) :
    rule2locationkey r = [] ∨ (∃ p, rule2locationkey r = [p]) ∨
      (∃ p, rule2locationkey r = ["=", p]) := by
  rcases h1 : matchWrapped "PathPrefix(`" r with _ | p
  · rcases h2 : matchWrapped "Path(`" r with _ | p
    · left
      simp [rule2locationkey, h1, h2]
    · right; right
      exact ⟨p, by simp [rule2locationkey, h1, h2]⟩
  · right; left
    exact ⟨p, by simp [rule2locationkey, h1]⟩

theorem filter_pre_balancer (location : String) (bs : List String) :
    ((["<Proxy balancer://" ++ location ++ ">"] ++
      (bs.map fun b => "  BalancerMember http://" ++ b) ++
      ["</Proxy>"]).filter fun l => pyStartsWith l "<Location") = [] := by
  simp [ploc_proxy, ploc_closep, List.filter_append, filter_balancer]

/-- C5 (amended): for every (router, service) pair that reaches emission
(non-empty backend list), the nginx emitter appends exactly one `location`
block per rule alternative, in order, whose args are that alternative's
location key — an unsupported alternative is NOT skipped: it contributes a
`location` block with empty args (and no warning is logged); the apache
emitter emits exactly one `<Location` section per alternative when all
alternatives are well-formed, and raises an uncaught IndexError as soon as
any alternative is unsupported. -/
theorem C5_amended (location : String) (route : HttpRouterS)
    (svc : HttpServiceS) (middlewares : List (String × HttpMiddlewareS))
    (ipaddr : Bool) (bs : List String)
    (h : get_backend svc ipaddr = .ok bs) (hbs : bs ≠ []) :
    (∃ blks, nginxPairBlocks location route svc middlewares ipaddr =
        .ok blks ∧
      (blks.filter fun d => d.directive == "location").map NgxDir.args =
        (locationKeys ((route.rule).getD "")).map
          fun lk => lk.map JValue.str) ∧
    ((∀ lk ∈ locationKeys ((route.rule).getD ""), lk ≠ []) →
      ∃ ls, apachePairLines location route svc middlewares ipaddr =
          .ok ls ∧
        (ls.filter fun l => pyStartsWith l "<Location").length =
          (locationKeys ((route.rule).getD "")).length) ∧
    (([] : List String) ∈ locationKeys ((route.rule).getD "") →
      apachePairLines location route svc middlewares ipaddr =
        .error .indexError) := by
  refine ⟨nginx_blocks_args location route svc middlewares ipaddr bs h hbs,
    fun hk => ?_, fun hbad => ?_⟩
  · have hsh : ∀ lk ∈ locationKeys ((route.rule).getD ""),
        (∃ p, lk = [p]) ∨ (∃ p, lk = ["=", p]) := by
      intro lk hlk
      obtain ⟨alt, _, hl⟩ := List.mem_map.mp hlk
      rcases rule2locationkey_shape alt with h0 | h1 | h2
      · exact absurd (hl ▸ h0) (hk lk hlk)
      · exact Or.inl (hl ▸ h1)
      · exact Or.inr (hl ▸ h2)
    rcases bs with _ | ⟨b, rest⟩
    · exact absurd rfl hbs
    · rcases rest with _ | ⟨b2, r2⟩
      · obtain ⟨ls, hf⟩ := apacheLocFold_ok ("http://" ++ b)
          (middleware2apache (resolveMiddles middlewares
            ((route.middlewares).getD [])))
          (locationKeys ((route.rule).getD "")) hk
        have hcount := apacheLocFold_count _ _ _ _ hsh hf
        rw [apachePairLines_unfold location route svc middlewares ipaddr
          [b] h, hf]
        exact ⟨_, rfl, by simpa using hcount⟩
      · obtain ⟨ls, hf⟩ := apacheLocFold_ok ("balancer://" ++ location)
          (middleware2apache (resolveMiddles middlewares
            ((route.middlewares).getD [])))
          (locationKeys ((route.rule).getD "")) hk
        have hcount := apacheLocFold_count _ _ _ _ hsh hf
        rw [apachePairLines_unfold location route svc middlewares ipaddr
          (b :: b2 :: r2) h, hf]
        have hbm : ∀ x : String,
            pyStartsWith ("  BalancerMember http://" ++ x) "<Location" =
              false := fun _ => rfl
        exact ⟨_, rfl, by simpa [List.filter_append, ploc_proxy,
          ploc_closep, filter_balancer, hbm] using hcount⟩
  · rw [apachePairLines_unfold location route svc middlewares ipaddr bs h,
      apacheLocFold_err _ _ _ hbad]
    rfl

/-- witness for C5 (amended) at a single `PathPrefix` rule and a single
backend. -/
theorem C5_amended_witness :
    get_backend portSvc false = .ok ["h:80"] ∧
      (∃ blks, nginxPairBlocks "r1"
          ({ rule := some "PathPrefix(`/hello`)" } : HttpRouterS) portSvc []
          false = .ok blks ∧
        (blks.filter fun d => d.directive == "location").map NgxDir.args =
          (locationKeys (((({ rule := some "PathPrefix(`/hello`)" } :
            HttpRouterS)).rule).getD "")).map
            fun lk => lk.map JValue.str) :=
  ⟨rfl,
    (C5_amended "r1" { rule := some "PathPrefix(`/hello`)" } portSvc []
      false ["h:80"] rfl (List.cons_ne_nil _ _)).1⟩

theorem pyInParents_irrefl (p : PyPath) : pyInParents p p = false := by
  simp [pyInParents]

theorem mem_setAdd {l : List String} {s x : String} :
    x ∈ setAdd l s ↔ x ∈ l ∨ x = s := by
  by_cases h : s ∈ l
  · simp only [setAdd, if_pos h]
    constructor
    · exact fun hx => Or.inl hx
    · rintro (hx | rfl)
      · exact hx
      · exact h
  · simp [setAdd, if_neg h]

theorem is_already_false_iff {prev : List String} {t : String} :
    is_already prev t = false ↔
      ∀ p ∈ prev, pyInParents (parsePath p) (parsePath t) = false := by
  simp [is_already, List.any_eq_false]

theorem ancestorFree_setAdd {l : List String} {s : String}
    (hl : AncestorFree l)
    (hup : ∀ q ∈ l, pyInParents (parsePath q) (parsePath s) = false)
    (hdown : ∀ q ∈ l, pyInParents (parsePath s) (parsePath q) = false) :
    AncestorFree (setAdd l s) := by
  intro p hp q hq
  rcases mem_setAdd.mp hp with hp' | rfl
  · rcases mem_setAdd.mp hq with hq' | rfl
    · exact hl p hp' q hq'
    · exact hdown p hp'
  · rcases mem_setAdd.mp hq with hq' | rfl
    · exact hup q hq'
    · exact pyInParents_irrefl _

/-- the effect of one diff entry on the `deleted` and `added` sets: each is
either untouched or extended by the entry's path after an ancestor check
against the same set. -/
theorem diffStep_sets (ignore : List String) (statOf : String → FileStat)
    (st : DiffState) (e : String × Nat) :
    ((diffStep ignore statOf st e).deleted = st.deleted ∨
      ((diffStep ignore statOf st e).deleted = setAdd st.deleted e.1 ∧
        is_already st.deleted e.1 = false)) ∧
    ((diffStep ignore statOf st e).added = st.added ∨
      ((diffStep ignore statOf st e).added = setAdd st.added e.1 ∧
        is_already st.added e.1 = false)) := by
  simp only [diffStep, do_kind0, do_kind1, do_kind2]
  split_ifs <;> simp_all

/-- the effect of one diff entry on the `modified` set: the path joins it
exactly when the entry has kind 0, is not ignored, and passes the stat
test. -/
theorem diffStep_modified (ignore : List String) (statOf : String → FileStat)
    (st : DiffState) (e : String × Nat) (p : String) :
    p ∈ (diffStep ignore statOf st e).modified ↔
      p ∈ st.modified ∨
        (e.1 = p ∧ e.2 = 0 ∧ is_match ignore e.1 = false ∧
          modifiedTest statOf e.1 = true) := by
  obtain ⟨pa, k⟩ := e
  by_cases hpq : pa = p
  · subst hpq
    simp only [diffStep, do_kind0, do_kind1, do_kind2, modifiedTest]
    split_ifs <;> simp_all [mem_setAdd] <;> tauto
  · simp only [diffStep, do_kind0, do_kind1, do_kind2, modifiedTest]
    split_ifs <;> simp_all [mem_setAdd] <;> tauto

/-- membership in the `modified` accumulator after folding a diff tail. -/
theorem diffFold_modified (ignore : List String) (statOf : String → FileStat) :
    ∀ (diff : List (String × Nat)) (st : DiffState) (p : String),
      (p ∈ (diff.foldl (diffStep ignore statOf) st).modified ↔
        p ∈ st.modified ∨
          ((p, 0) ∈ diff ∧ is_match ignore p = false ∧
            modifiedTest statOf p = true)) := by
  intro diff
  induction diff with
  | nil => intro st p; simp
  | cons e rest ih =>
    intro st p
    simp only [List.foldl_cons]
    rw [ih, diffStep_modified, List.mem_cons]
    constructor
    · rintro ((hA | ⟨rfl, h0, him, ht⟩) | ⟨hr, him, ht⟩)
      · exact Or.inl hA
      · exact Or.inr ⟨Or.inl (Prod.ext_iff.mpr ⟨rfl, h0.symm⟩), him, ht⟩
      · exact Or.inr ⟨Or.inr hr, him, ht⟩
    · rintro (hA | ⟨(he | hr), him, ht⟩)
      · exact Or.inl (Or.inl hA)
      · have h1 : e.1 = p := by rw [← he]
        have h2 : e.2 = 0 := by rw [← he]
        exact Or.inl (Or.inr ⟨h1, h2, by rw [h1]; exact him,
          by rw [h1]; exact ht⟩)
      · exact Or.inr ⟨hr, him, ht⟩

/-- folding an ancestors-first diff keeps `deleted` and `added` free of
internal ancestor pairs, given that no upcoming entry is an ancestor of a
path already recorded. -/
theorem diffFold_sets (ignore : List String) (statOf : String → FileStat) :
    ∀ (diff : List (String × Nat)) (st : DiffState),
      LaterNotAncestor diff →
      (∀ f ∈ diff, ∀ s ∈ st.deleted,
        pyInParents (parsePath f.1) (parsePath s) = false) →
      (∀ f ∈ diff, ∀ s ∈ st.added,
        pyInParents (parsePath f.1) (parsePath s) = false) →
      AncestorFree st.deleted → AncestorFree st.added →
      AncestorFree ((diff.foldl (diffStep ignore statOf) st).deleted) ∧
      AncestorFree ((diff.foldl (diffStep ignore statOf) st).added) := by
  intro diff
  induction diff with
  | nil => intro st _ _ _ hd ha; exact ⟨hd, ha⟩
  | cons e rest ih =>
    intro st hlna hdel hadd hd ha
    obtain ⟨hhead, hlna2⟩ := hlna
    simp only [List.foldl_cons]
    obtain ⟨hDel, hAdd⟩ := diffStep_sets ignore statOf st e
    refine ih (diffStep ignore statOf st e) hlna2 ?_ ?_ ?_ ?_
    · intro f hf s hs
      rcases hDel with hEq | ⟨hEq, _⟩
      · exact hdel f (List.mem_cons_of_mem e hf) s (hEq ▸ hs)
      · rcases mem_setAdd.mp (hEq ▸ hs) with hs2 | rfl
        · exact hdel f (List.mem_cons_of_mem e hf) s hs2
        · exact hhead f hf
    · intro f hf s hs
      rcases hAdd with hEq | ⟨hEq, _⟩
      · exact hadd f (List.mem_cons_of_mem e hf) s (hEq ▸ hs)
      · rcases mem_setAdd.mp (hEq ▸ hs) with hs2 | rfl
        · exact hadd f (List.mem_cons_of_mem e hf) s hs2
        · exact hhead f hf
    · rcases hDel with hEq | ⟨hEq, hAl⟩
      · rw [hEq]; exact hd
      · rw [hEq]
        exact ancestorFree_setAdd hd
          (fun q hq => is_already_false_iff.mp hAl q hq)
          (fun q hq => hdel e (List.mem_cons_self e rest) q hq)
    · rcases hAdd with hEq | ⟨hEq, hAl⟩
      · rw [hEq]; exact ha
      · rw [hEq]
        exact ancestorFree_setAdd ha
          (fun q hq => is_already_false_iff.mp hAl q hq)
          (fun q hq => hadd e (List.mem_cons_self e rest) q hq)

/-- C6: amended claim. When the engine diff lists ancestors before their
descendants (no later entry is a proper ancestor of an earlier one), the
`deleted` and `added` sets of `get_diff` contain no path together with a
proper ancestor of it; `modified`, by contrast, is not thinned by any
ancestor check: it holds exactly the non-ignored kind-0 paths that pass
the stat test (no non-regular mode bit, not a symlink with a target). -/
theorem C6_amended (diff : List (String × Nat)) (ignore : List String)
    (statOf : String → FileStat) (h : LaterNotAncestor diff) :
    AncestorFree (get_diff diff ignore statOf).deleted ∧
    AncestorFree (get_diff diff ignore statOf).added ∧
    ∀ p, p ∈ (get_diff diff ignore statOf).modified ↔
      ((p, 0) ∈ diff ∧ is_match ignore p = false ∧
        modifiedTest statOf p = true) := by
  have hsets := diffFold_sets ignore statOf diff {} h
    (fun f _ s hs => absurd hs (List.not_mem_nil s))
    (fun f _ s hs => absurd hs (List.not_mem_nil s))
    (fun p hp => absurd hp (List.not_mem_nil p))
    (fun p hp => absurd hp (List.not_mem_nil p))
  refine ⟨hsets.1, hsets.2, fun p => ?_⟩
  rw [get_diff, diffFold_modified]
  simp

/-- C6 witness: the amended theorem at a concrete ancestors-first diff. -/
theorem C6_amended_witness :
    LaterNotAncestor
      [("/etc", 2), ("/etc/hosts", 2), ("/var", 1), ("/var/log", 0)] ∧
    (AncestorFree (get_diff
        [("/etc", 2), ("/etc/hosts", 2), ("/var", 1), ("/var/log", 0)]
        ["/tmp*"] (fun _ => {})).deleted ∧
      AncestorFree (get_diff
        [("/etc", 2), ("/etc/hosts", 2), ("/var", 1), ("/var/log", 0)]
        ["/tmp*"] (fun _ => {})).added ∧
      ∀ p, p ∈ (get_diff
          [("/etc", 2), ("/etc/hosts", 2), ("/var", 1), ("/var/log", 0)]
          ["/tmp*"] (fun _ => {})).modified ↔
        ((p, 0) ∈
            [("/etc", 2), ("/etc/hosts", 2), ("/var", 1), ("/var/log", 0)] ∧
          is_match ["/tmp*"] p = false ∧
          modifiedTest (fun _ => {}) p = true)) :=
  ⟨by decide,
    C6_amended
      [("/etc", 2), ("/etc/hosts", 2), ("/var", 1), ("/var/log", 0)]
      ["/tmp*"] (fun _ => {}) (by decide)⟩
